import Mathlib

/-!
# Taller7CVI: the mobile renderer

A shallow embedding of the numeric and state logic of `main.cpp` and
`myopengl.cpp`: the fragment shader's base colour, shadow test and lighting, the
glm matrix helpers used to build the view matrix and each object's model matrix
in both render passes, the per-object render state with its start-up
initialisation, the camera input step, the Debug Panel's widgets, texture
loading, and the ways `main` ends.

A `float` value is embedded as the rational it denotes. The shader and matrix
arithmetic is embedded as the exact arithmetic its expressions spell out; the
camera control, whose claims are about exact cancellation, rounds the result of
every `float` operation to binary32 (`f32`).
-/

namespace Taller7CVI

/-! ## Vectors -/

/-- GLSL / glm `vec3`. -/
structure Vec3 where
  x : ℚ
  y : ℚ
  z : ℚ
deriving DecidableEq

/-- GLSL / glm `vec4`. -/
structure Vec4 where
  x : ℚ
  y : ℚ
  z : ℚ
  w : ℚ
deriving DecidableEq

namespace Vec3

/-- Componentwise sum. -/
def add (a b : Vec3) : Vec3 := ⟨a.x + b.x, a.y + b.y, a.z + b.z⟩

/-- Unary minus. -/
def neg (a : Vec3) : Vec3 := ⟨-a.x, -a.y, -a.z⟩

/-- Product with a scalar. -/
def smul (k : ℚ) (a : Vec3) : Vec3 := ⟨k * a.x, k * a.y, k * a.z⟩

/-- GLSL `dot`. -/
def dot (a b : Vec3) : ℚ := a.x * b.x + a.y * b.y + a.z * b.z

end Vec3

namespace Vec4

/-- Componentwise sum. -/
def add (a b : Vec4) : Vec4 := ⟨a.x + b.x, a.y + b.y, a.z + b.z, a.w + b.w⟩

/-- Product with a scalar (`v * k` and `v *= k` in the shader). -/
def smul (k : ℚ) (a : Vec4) : Vec4 := ⟨k * a.x, k * a.y, k * a.z, k * a.w⟩

/-- The `.rgb` swizzle. -/
def rgb (a : Vec4) : Vec3 := ⟨a.x, a.y, a.z⟩

end Vec4

/-! ## Fragment shader: base colour (`fragmentShaderSource`, `main`, lines 100-118) -/

/-- The `baseColor` computed at the top of the fragment shader's `main`.
`sample1`, `sample2`, `sample3` and `sampleDiffuse` are the values of
`texture(texture1, TexCoord)`, `texture(texture2, TexCoord)`,
`texture(texture3, TexCoord)` and `texture(diffuseTexture, TexCoord)`. -/
def baseColor (useTexture useMultiTexture : Bool) (mixRatio1 mixRatio2 mixRatio3 : ℚ)
    (sample1 sample2 sample3 sampleDiffuse : Vec4) : Vec3 :=
  if useTexture then
    if useMultiTexture then
      let tex1 := Vec4.smul mixRatio1 sample1
      let tex2 := Vec4.smul mixRatio2 sample2
      let tex3 := Vec4.smul mixRatio3 sample3
      let totalRatio := mixRatio1 + mixRatio2 + mixRatio3
      let tex1 := if totalRatio > 0 then Vec4.smul (mixRatio1 / totalRatio) tex1 else tex1
      let tex2 := if totalRatio > 0 then Vec4.smul (mixRatio2 / totalRatio) tex2 else tex2
      let tex3 := if totalRatio > 0 then Vec4.smul (mixRatio3 / totalRatio) tex3 else tex3
      Vec4.rgb (Vec4.add (Vec4.add tex1 tex2) tex3)
    else
      Vec4.rgb sampleDiffuse
  else
    ⟨1, 1, 1⟩

/-- The weighted sum `w1*s1 + w2*s2 + w3*s3` of three samples, as a colour. -/
def weightedBlend (w1 w2 w3 : ℚ) (s1 s2 s3 : Vec4) : Vec3 :=
  Vec4.rgb (Vec4.add (Vec4.add (Vec4.smul w1 s1) (Vec4.smul w2 s2)) (Vec4.smul w3 s3))

/-! ## Fragment shader: `ShadowCalculation` (lines 81-97) -/

/-- The `projCoords` of `ShadowCalculation`: perspective divide, then the remap
`projCoords * 0.5 + 0.5` from [-1,1] to [0,1]. -/
def projCoords (fragPosLightSpace : Vec4) : Vec3 :=
  let p : Vec3 := ⟨fragPosLightSpace.x / fragPosLightSpace.w,
    fragPosLightSpace.y / fragPosLightSpace.w, fragPosLightSpace.z / fragPosLightSpace.w⟩
  ⟨p.x * (1 / 2) + 1 / 2, p.y * (1 / 2) + 1 / 2, p.z * (1 / 2) + 1 / 2⟩

/-- The `bias` of `ShadowCalculation`:
`max(0.05 * (1.0 - dot(normal, -lightDir)), 0.005)`. -/
def shadowBias (normal lightDir : Vec3) : ℚ :=
  max (5 / 100 * (1 - Vec3.dot normal (Vec3.neg lightDir))) (5 / 1000)

/-- The shader function `ShadowCalculation`. `shadowMap u v` is
`texture(shadowMap, vec2(u, v)).r`. -/
def ShadowCalculation (shadowMap : ℚ → ℚ → ℚ) (fragPosLightSpace : Vec4)
    (normal lightDir : Vec3) : ℚ :=
  let pc := projCoords fragPosLightSpace
  let closestDepth := shadowMap pc.x pc.y
  let currentDepth := pc.z
  let bias := shadowBias normal lightDir
  let shadow : ℚ := if currentDepth - bias > closestDepth then 1 else 0
  if pc.z > 1 then 0 else shadow

/-! ## Matrices (glm `mat4`, column-major) -/

/-- The glm `mat4`: four columns, `m[0]` to `m[3]`. -/
structure Mat4 where
  c0 : Vec4
  c1 : Vec4
  c2 : Vec4
  c3 : Vec4
deriving DecidableEq

namespace Mat4

/-- The matrix `glm::mat4(1.0f)`. -/
def identity : Mat4 := ⟨⟨1, 0, 0, 0⟩, ⟨0, 1, 0, 0⟩, ⟨0, 0, 1, 0⟩, ⟨0, 0, 0, 1⟩⟩

/-- Matrix times column vector: the combination of the columns of `m` with the
components of `v`. -/
def mulVec (m : Mat4) (v : Vec4) : Vec4 :=
  Vec4.add (Vec4.add (Vec4.add (Vec4.smul v.x m.c0) (Vec4.smul v.y m.c1)) (Vec4.smul v.z m.c2))
    (Vec4.smul v.w m.c3)

/-- Matrix product `a * b`: column `j` of the result is `a` applied to column `j`
of `b`. -/
def mul (a b : Mat4) : Mat4 := ⟨mulVec a b.c0, mulVec a b.c1, mulVec a b.c2, mulVec a b.c3⟩

end Mat4

namespace glm

/-- The library function `glm::translate(m, v)`: `Result = m;
Result[3] = m[0] * v[0] + m[1] * v[1] + m[2] * v[2] + m[3]`. -/
def translate (m : Mat4) (v : Vec3) : Mat4 :=
  { m with
    c3 := Vec4.add (Vec4.add (Vec4.add (Vec4.smul v.x m.c0) (Vec4.smul v.y m.c1))
      (Vec4.smul v.z m.c2)) m.c3 }

/-- The library function `glm::scale(m, v)`: `Result[0] = m[0] * v[0];
Result[1] = m[1] * v[1]; Result[2] = m[2] * v[2]; Result[3] = m[3]`. -/
def scale (m : Mat4) (v : Vec3) : Mat4 :=
  ⟨Vec4.smul v.x m.c0, Vec4.smul v.y m.c1, Vec4.smul v.z m.c2, m.c3⟩

/-- The library function `glm::rotate(m, angle, v)`, with `c = cos(angle)`,
`s = sin(angle)` and `axis = normalize(v)` passed in (the cosine, sine and square
root are not rational functions). Every call in `main.cpp` passes `v = (0, 1, 0)`
or `v = (1, 0, 0)`, whose normalisation is itself. -/
def rotate (m : Mat4) (c s : ℚ) (axis : Vec3) : Mat4 :=
  let temp : Vec3 := Vec3.smul (1 - c) axis
  let r00 := c + temp.x * axis.x
  let r01 := temp.x * axis.y + s * axis.z
  let r02 := temp.x * axis.z - s * axis.y
  let r10 := temp.y * axis.x - s * axis.z
  let r11 := c + temp.y * axis.y
  let r12 := temp.y * axis.z + s * axis.x
  let r20 := temp.z * axis.x + s * axis.y
  let r21 := temp.z * axis.y - s * axis.x
  let r22 := c + temp.z * axis.z
  ⟨Vec4.add (Vec4.add (Vec4.smul r00 m.c0) (Vec4.smul r01 m.c1)) (Vec4.smul r02 m.c2),
   Vec4.add (Vec4.add (Vec4.smul r10 m.c0) (Vec4.smul r11 m.c1)) (Vec4.smul r12 m.c2),
   Vec4.add (Vec4.add (Vec4.smul r20 m.c0) (Vec4.smul r21 m.c1)) (Vec4.smul r22 m.c2),
   m.c3⟩

end glm

namespace myopengl

/-- The helper `myopengl::scale` of `myopengl.cpp`: `glm::scale` applied to the
identity. -/
def scale (scaleVector : Vec3) : Mat4 :=
  let model := Mat4.identity
  glm.scale model scaleVector

end myopengl

/-! ## Model matrices of the colour pass (`main`, lines 534-546) -/

/-- The array `posiciones[12]` of `main`. -/
def posiciones (i : Fin 12) : Vec3 :=
  match i with
  | 0 => ⟨2, -2, 0⟩
  | 1 => ⟨-2, -2, 0⟩
  | 2 => ⟨0, -2, 2⟩
  | 3 => ⟨0, -2, -2⟩
  | 4 => ⟨0, 4, 0⟩
  | 5 => ⟨-20, -1 / 2, 0⟩
  | 6 => ⟨20, -1 / 2, 0⟩
  | 7 => ⟨0, -1 / 2, 20⟩
  | 8 => ⟨0, -1 / 2, -20⟩
  | 9 => ⟨0, -1 / 2, 0⟩
  | 10 => ⟨0, -1 / 2, 0⟩
  | 11 => ⟨0, 1 / 2, 0⟩

/-- The `model` of object `i` in the colour pass after the `glm::translate` line
and before the shared rotation is multiplied on. -/
def colorPassModelUnrotated (i : Fin 12) : Mat4 :=
  let model := Mat4.identity
  let model :=
    if i.val ≥ 5 ∧ i.val < 9 then myopengl.scale ⟨1 / 10, 2, 1 / 10⟩
    else if i.val = 9 then myopengl.scale ⟨4, 1 / 10, 1 / 10⟩
    else if i.val = 10 then myopengl.scale ⟨1 / 10, 1 / 10, 4⟩
    else if i.val = 11 then myopengl.scale ⟨1 / 10, 4, 1 / 10⟩
    else model
  glm.translate model (posiciones i)

/-- The `model` matrix the colour pass uploads for object `i`;
`cosAngle` and `sinAngle` are the cosine and sine of `angle`. -/
def colorPassModel (cosAngle sinAngle : ℚ) (i : Fin 12) : Mat4 :=
  Mat4.mul (glm.rotate Mat4.identity cosAngle sinAngle ⟨0, 1, 0⟩) (colorPassModelUnrotated i)

/-! ### The matrices the specification names -/

/-- The rotation about the Y axis by an angle with the given cosine and sine, as
a matrix. -/
def rotateY (c s : ℚ) : Mat4 := ⟨⟨c, 0, -s, 0⟩, ⟨0, 1, 0, 0⟩, ⟨s, 0, c, 0⟩, ⟨0, 0, 0, 1⟩⟩

/-- The translation by `v`, as a matrix. -/
def translationMatrix (v : Vec3) : Mat4 :=
  ⟨⟨1, 0, 0, 0⟩, ⟨0, 1, 0, 0⟩, ⟨0, 0, 1, 0⟩, ⟨v.x, v.y, v.z, 1⟩⟩

/-- The scaling by `v`, as a matrix. -/
def scaleMatrix (v : Vec3) : Mat4 :=
  ⟨⟨v.x, 0, 0, 0⟩, ⟨0, v.y, 0, 0⟩, ⟨0, 0, v.z, 0⟩, ⟨0, 0, 0, 1⟩⟩

/-- The scale vector the specification lists for object `i`; `(1, 1, 1)` stands
for 'no scale'. -/
def specScale (i : Fin 12) : Vec3 :=
  if 5 ≤ i.val ∧ i.val ≤ 8 then ⟨1 / 10, 2, 1 / 10⟩
  else if i.val = 9 then ⟨4, 1 / 10, 1 / 10⟩
  else if i.val = 10 then ⟨1 / 10, 1 / 10, 4⟩
  else if i.val = 11 then ⟨1 / 10, 4, 1 / 10⟩
  else ⟨1, 1, 1⟩

/-- Componentwise product of two vectors. -/
def Vec3.hadamard (a b : Vec3) : Vec3 := ⟨a.x * b.x, a.y * b.y, a.z * b.z⟩

/-! ## Application state (`main.cpp` globals, and the per-object arrays of `main`) -/

/-- The `struct MultiTextureConfig`. -/
structure MultiTextureConfig where
  useMultiTexture : Bool
  texIndex1 : Int
  texIndex2 : Int
  texIndex3 : Int
  mixRatio1 : ℚ
  mixRatio2 : ℚ
  mixRatio3 : ℚ
deriving DecidableEq

/-- The mutable state the frame loop works on: the camera globals (`Yaw`,
`Pitch`, `mouseSensitivity`, `wasd_Movement`, `movementSpeed`, `lastFrame`,
`deltaTime`) and the three 12-element arrays of `main`. -/
structure AppState where
  Yaw : ℚ
  Pitch : ℚ
  mouseSensitivity : ℚ
  wasd_Movement : Vec3
  movementSpeed : ℚ
  lastFrame : ℚ
  deltaTime : ℚ
  cubeTextures : Fin 12 → Int
  useTextures : Fin 12 → Bool
  multiTexConfigs : Fin 12 → MultiTextureConfig

/-- The initialiser `int cubeTextures[12] = { 0, 1, 2, 3, 4, 0, 1, 2, 3, 0, 1, 2 }`. -/
def initCubeTextures (i : Fin 12) : Int :=
  match i with
  | 0 => 0
  | 1 => 1
  | 2 => 2
  | 3 => 3
  | 4 => 4
  | 5 => 0
  | 6 => 1
  | 7 => 2
  | 8 => 3
  | 9 => 0
  | 10 => 1
  | 11 => 2

/-- The initialiser `bool useTextures[12] = { true, ..., true }`. -/
def initUseTextures (_ : Fin 12) : Bool := true

/-- The start-up initialisation of `multiTexConfigs` (lines 393-408): the loop
`for (int i = 0; i < 12; i++)` that assigns every entry of the array declared
without initialiser (`uninit` is what the array held before), then the three
assignments that switch multitexture on for objects 0, 1 and 2. -/
def initMultiTexConfigs (uninit : Fin 12 → MultiTextureConfig) :
    Fin 12 → MultiTextureConfig :=
  let cfgs := (List.finRange 12).foldl
    (fun cfgs i => Function.update cfgs i
      { useMultiTexture := false
        texIndex1 := (i.val : Int) % 5
        texIndex2 := ((i.val : Int) + 1) % 5
        texIndex3 := ((i.val : Int) + 2) % 5
        mixRatio1 := 1
        mixRatio2 := 0
        mixRatio3 := 0 })
    uninit
  let cfgs := Function.update cfgs 0 { cfgs 0 with useMultiTexture := true }
  let cfgs := Function.update cfgs 1 { cfgs 1 with useMultiTexture := true }
  Function.update cfgs 2 { cfgs 2 with useMultiTexture := true }

/-- The state when the frame loop is entered for the first time. -/
def initialState (uninit : Fin 12 → MultiTextureConfig) : AppState where
  Yaw := 0
  Pitch := 0
  mouseSensitivity := 1 / 2
  wasd_Movement := ⟨0, 0, 0⟩
  movementSpeed := 5
  lastFrame := 0
  deltaTime := 0
  cubeTextures := initCubeTextures
  useTextures := initUseTextures
  multiTexConfigs := initMultiTexConfigs uninit

/-! ## Camera control (`main`, lines 438-461) -/

/-- The nearest integer to `x`, the even one of the two when `x` lies halfway. -/
def roundHalfEven (x : ℚ) : ℤ :=
  let f := ⌊x⌋
  let r := x - f
  if r < 1 / 2 then f
  else if 1 / 2 < r then f + 1
  else if f % 2 = 0 then f
  else f + 1

/-- Rounding to binary32, the arithmetic of a C++ `float`: the nearest multiple
of `2 ^ (e - 23)`, ties to even, where `2 ^ e ≤ |x| < 2 ^ (e + 1)` and `e` is kept
at -126 or above (subnormal range). Overflow to infinity is left out: the value
stays finite. -/
def f32 (x : ℚ) : ℚ :=
  let e := max (Int.log 2 |x|) (-126)
  let ulp : ℚ := 2 ^ (e - 23)
  roundHalfEven (x / ulp) * ulp

/-- What one iteration of the frame loop reads from the clock and from the input
devices: the `double` returned by `glfwGetTime()`, the four `ImGui::IsKeyDown`
results, `io.MouseWheel`, `io.MouseDown[1]` and `io.MouseDelta`. -/
structure FrameInput where
  glfwGetTime : ℚ
  keyW : Bool
  keyS : Bool
  keyA : Bool
  keyD : Bool
  mouseWheel : ℚ
  mouseDown1 : Bool
  mouseDeltaX : ℚ
  mouseDeltaY : ℚ

/-- The head of the frame loop: the `deltaTime` bookkeeping, the W/S/A/D and
mouse-wheel updates of `wasd_Movement`, and the right-button drag that
accumulates into `Yaw` and `Pitch`. Every variable written is a `float`: the
clock reading is rounded when it is stored in `currentFrame`, and so is the
result of every subtraction, product and sum. -/
def cameraControl (s : AppState) (inp : FrameInput) : AppState :=
  let currentFrame := f32 inp.glfwGetTime
  let s := { s with deltaTime := f32 (currentFrame - s.lastFrame) }
  let s := { s with lastFrame := currentFrame }
  let s := if inp.keyW then
      { s with wasd_Movement :=
          { s.wasd_Movement with
            y := f32 (s.wasd_Movement.y - f32 (s.movementSpeed * s.deltaTime)) } }
    else s
  let s := if inp.keyS then
      { s with wasd_Movement :=
          { s.wasd_Movement with
            y := f32 (s.wasd_Movement.y + f32 (s.movementSpeed * s.deltaTime)) } }
    else s
  let s := if inp.keyA then
      { s with wasd_Movement :=
          { s.wasd_Movement with
            x := f32 (s.wasd_Movement.x + f32 (s.movementSpeed * s.deltaTime)) } }
    else s
  let s := if inp.keyD then
      { s with wasd_Movement :=
          { s.wasd_Movement with
            x := f32 (s.wasd_Movement.x - f32 (s.movementSpeed * s.deltaTime)) } }
    else s
  let s := if inp.mouseWheel > 0 then
      { s with wasd_Movement :=
          { s.wasd_Movement with z := f32 (s.wasd_Movement.z + f32 (200 * s.deltaTime)) } }
    else s
  let s := if inp.mouseWheel < 0 then
      { s with wasd_Movement :=
          { s.wasd_Movement with z := f32 (s.wasd_Movement.z - f32 (200 * s.deltaTime)) } }
    else s
  if inp.mouseDown1 then
    let deltaX := inp.mouseDeltaY
    let deltaY := inp.mouseDeltaX
    let s := { s with Yaw := f32 (s.Yaw + f32 (f32 (deltaX * s.deltaTime) * s.mouseSensitivity)) }
    { s with Pitch := f32 (s.Pitch + f32 (f32 (deltaY * s.deltaTime) * s.mouseSensitivity)) }
  else s

/-- The `deltaTime` of the frame: `currentFrame - lastFrame` in `float`. -/
def frameDeltaTime (s : AppState) (inp : FrameInput) : ℚ :=
  f32 (f32 inp.glfwGetTime - s.lastFrame)

/-- The `float` product `movementSpeed * deltaTime` of the frame. -/
def moveStep (s : AppState) (inp : FrameInput) : ℚ :=
  f32 (s.movementSpeed * frameDeltaTime s inp)

/-! ## Debug Panel (`main`, lines 589-643) -/

/-- One interaction with a widget of the "Settings" window. The index carried
by a per-object widget is the loop variable of the loop that draws it:
`for (int i = 0; i < 5; i++)` under "Texture Settings" and
`for (int i = 0; i < 3; i++)` under "Multitexture Settings". A combo selection
carries the picked entry of the five `textureNames`. -/
inductive PanelAction where
  | resetView
  | mouseSensitivitySlider (v : ℚ)
  | useTextureCheckbox (i : Fin 5)
  | textureCombo (i : Fin 5) (item : Fin 5)
  | multiTextureCheckbox (i : Fin 3)
  | primaryTextureCombo (i : Fin 3) (item : Fin 5)
  | secondaryTextureCombo (i : Fin 3) (item : Fin 5)
  | tertiaryTextureCombo (i : Fin 3) (item : Fin 5)
  | primaryMixSlider (i : Fin 3) (v : ℚ)
  | secondaryMixSlider (i : Fin 3) (v : ℚ)
  | tertiaryMixSlider (i : Fin 3) (v : ℚ)
  | blendEqualButton (i : Fin 3)
  | primaryDominantButton (i : Fin 3)

/-- The array slot a "Texture Settings" row with loop index `i` works on. -/
def textureRow (i : Fin 5) : Fin 12 := Fin.castLE (by decide) i

/-- The array slot a "Multitexture Settings" row with loop index `i` works on. -/
def multiTextureRow (i : Fin 3) : Fin 12 := Fin.castLE (by decide) i

/-- The value `ImGui::SliderFloat(label, &v, lo, hi)` stores when the handle is
dragged towards `v`: the library keeps it between `lo` and `hi`. -/
def sliderFloat (lo hi v : ℚ) : ℚ := max lo (min hi v)

/-- The effect of one widget interaction on the state. `ImGui::Checkbox` flips
its flag, `ImGui::Combo` stores the index of the picked entry, a button runs the
body of its `if`. A widget inside `if (useTextures[i])` or
`if (multiTexConfigs[i].useMultiTexture)` is drawn only when that flag is on;
when it is not drawn there is nothing to interact with and the state stays. -/
def debugPanel (s : AppState) : PanelAction → AppState
  | .resetView => { s with Yaw := 0, Pitch := 0, wasd_Movement := ⟨0, 0, 0⟩ }
  | .mouseSensitivitySlider v => { s with mouseSensitivity := sliderFloat (1 / 10) 2 v }
  | .useTextureCheckbox i =>
      { s with useTextures :=
          Function.update s.useTextures (textureRow i) (!s.useTextures (textureRow i)) }
  | .textureCombo i item =>
      if s.useTextures (textureRow i) then
        { s with cubeTextures := Function.update s.cubeTextures (textureRow i) (item.val : Int) }
      else s
  | .multiTextureCheckbox i =>
      let cfg := s.multiTexConfigs (multiTextureRow i)
      { s with
        multiTexConfigs :=
          Function.update s.multiTexConfigs (multiTextureRow i)
            { cfg with useMultiTexture := !cfg.useMultiTexture } }
  | .primaryTextureCombo i item =>
      let cfg := s.multiTexConfigs (multiTextureRow i)
      if cfg.useMultiTexture then
        { s with
          multiTexConfigs :=
            Function.update s.multiTexConfigs (multiTextureRow i)
              { cfg with texIndex1 := (item.val : Int) } }
      else s
  | .secondaryTextureCombo i item =>
      let cfg := s.multiTexConfigs (multiTextureRow i)
      if cfg.useMultiTexture then
        { s with
          multiTexConfigs :=
            Function.update s.multiTexConfigs (multiTextureRow i)
              { cfg with texIndex2 := (item.val : Int) } }
      else s
  | .tertiaryTextureCombo i item =>
      let cfg := s.multiTexConfigs (multiTextureRow i)
      if cfg.useMultiTexture then
        { s with
          multiTexConfigs :=
            Function.update s.multiTexConfigs (multiTextureRow i)
              { cfg with texIndex3 := (item.val : Int) } }
      else s
  | .primaryMixSlider i v =>
      let cfg := s.multiTexConfigs (multiTextureRow i)
      if cfg.useMultiTexture then
        { s with
          multiTexConfigs :=
            Function.update s.multiTexConfigs (multiTextureRow i)
              { cfg with mixRatio1 := sliderFloat 0 1 v } }
      else s
  | .secondaryMixSlider i v =>
      let cfg := s.multiTexConfigs (multiTextureRow i)
      if cfg.useMultiTexture then
        { s with
          multiTexConfigs :=
            Function.update s.multiTexConfigs (multiTextureRow i)
              { cfg with mixRatio2 := sliderFloat 0 1 v } }
      else s
  | .tertiaryMixSlider i v =>
      let cfg := s.multiTexConfigs (multiTextureRow i)
      if cfg.useMultiTexture then
        { s with
          multiTexConfigs :=
            Function.update s.multiTexConfigs (multiTextureRow i)
              { cfg with mixRatio3 := sliderFloat 0 1 v } }
      else s
  | .blendEqualButton i =>
      let cfg := s.multiTexConfigs (multiTextureRow i)
      if cfg.useMultiTexture then
        { s with
          multiTexConfigs :=
            Function.update s.multiTexConfigs (multiTextureRow i)
              { cfg with mixRatio1 := 33 / 100, mixRatio2 := 33 / 100, mixRatio3 := 33 / 100 } }
      else s
  | .primaryDominantButton i =>
      let cfg := s.multiTexConfigs (multiTextureRow i)
      if cfg.useMultiTexture then
        { s with
          multiTexConfigs :=
            Function.update s.multiTexConfigs (multiTextureRow i)
              { cfg with mixRatio1 := 7 / 10, mixRatio2 := 2 / 10, mixRatio3 := 1 / 10 } }
      else s

/-- What can change the state during the frame loop: the camera control at the
head of an iteration, or an interaction with the Debug Panel. -/
inductive Event where
  | input (inp : FrameInput)
  | panel (a : PanelAction)

/-- The state after one event. -/
def step (s : AppState) : Event → AppState
  | .input inp => cameraControl s inp
  | .panel a => debugPanel s a

/-- The state after a sequence of events, from the initial state. -/
def run (uninit : Fin 12 → MultiTextureConfig) (events : List Event) : AppState :=
  events.foldl step (initialState uninit)

/-- The indices with which the colour pass subscripts `textures` while drawing
object `i` (lines 550-566). -/
def colorPassTextureLookups (s : AppState) (i : Fin 12) : List Int :=
  if (s.multiTexConfigs i).useMultiTexture && s.useTextures i then
    [(s.multiTexConfigs i).texIndex1, (s.multiTexConfigs i).texIndex2,
      (s.multiTexConfigs i).texIndex3]
  else
    [s.cubeTextures i]

/-- An index is a valid subscript of the 5-element `textures` vector. -/
def validTextureIndex (k : Int) : Prop := 0 ≤ k ∧ k < 5

/-- All texture indices held in the per-object arrays are valid subscripts of
`textures`. -/
def TextureIndicesValid (s : AppState) : Prop :=
  ∀ i : Fin 12, validTextureIndex (s.cubeTextures i) ∧
    validTextureIndex (s.multiTexConfigs i).texIndex1 ∧
    validTextureIndex (s.multiTexConfigs i).texIndex2 ∧
    validTextureIndex (s.multiTexConfigs i).texIndex3

/-! ## View matrix (`main`, lines 463-467) -/

/-- The `view` matrix of a frame: the identity, translated by
`(wasd_Movement.x, wasd_Movement.y, -18 + wasd_Movement.z)`, then rotated by
`Pitch` about (0, 1, 0), then by `Yaw` about (1, 0, 0). `cos` and `sin` stand for
the cosine and sine the library takes of the angle. -/
def viewMatrix (cos sin : ℚ → ℚ) (s : AppState) : Mat4 :=
  let view := Mat4.identity
  let view := glm.translate view
    ⟨s.wasd_Movement.x, s.wasd_Movement.y, -18 + s.wasd_Movement.z⟩
  let view := glm.rotate view (cos s.Pitch) (sin s.Pitch) ⟨0, 1, 0⟩
  glm.rotate view (cos s.Yaw) (sin s.Yaw) ⟨1, 0, 0⟩

/-- The rotation about the X axis by an angle with the given cosine and sine, as
a matrix. -/
def rotateX (c s : ℚ) : Mat4 := ⟨⟨1, 0, 0, 0⟩, ⟨0, c, s, 0⟩, ⟨0, -s, c, 0⟩, ⟨0, 0, 0, 1⟩⟩

/-! ## Fragment shader: lighting (`fragmentShaderSource`, `main`, lines 120-134) -/

/-- Componentwise difference. -/
def Vec3.sub (a b : Vec3) : Vec3 := ⟨a.x - b.x, a.y - b.y, a.z - b.z⟩

/-- GLSL `reflect(I, N)`, that is `I - 2.0 * dot(N, I) * N`. -/
def reflect (I N : Vec3) : Vec3 := Vec3.sub I (Vec3.smul (2 * Vec3.dot N I) N)

/-- The uniforms the fragment shader reads, the samplers apart. -/
structure FragmentUniforms where
  useMultiTexture : Bool
  useTexture : Bool
  mixRatio1 : ℚ
  mixRatio2 : ℚ
  mixRatio3 : ℚ
  lightDir : Vec3
  viewPos : Vec3

/-- The interpolated inputs of one fragment, with the four texture samples taken
at its `TexCoord`. -/
structure FragmentInput where
  FragPos : Vec3
  Normal : Vec3
  FragPosLightSpace : Vec4
  sample1 : Vec4
  sample2 : Vec4
  sample3 : Vec4
  sampleDiffuse : Vec4

/-- The `baseColor` of a fragment under the given uniforms. -/
def fragmentBaseColor (u : FragmentUniforms) (f : FragmentInput) : Vec3 :=
  baseColor u.useTexture u.useMultiTexture u.mixRatio1 u.mixRatio2 u.mixRatio3
    f.sample1 f.sample2 f.sample3 f.sampleDiffuse

/-- The shader's `diff`: `max(dot(norm, -lightDir), 0.0)`. -/
def diffuseFactor (norm lightDir : Vec3) : ℚ := max (Vec3.dot norm (Vec3.neg lightDir)) 0

/-- The shader's `specular`: `vec3(0.3) * pow(max(dot(viewDir, reflectDir), 0.0), 32.0)`
with `reflectDir = reflect(lightDir, norm)`. -/
def specularTerm (viewDir norm lightDir : Vec3) : Vec3 :=
  let reflectDir := reflect lightDir norm
  let spec := (max (Vec3.dot viewDir reflectDir) 0) ^ 32
  Vec3.smul spec ⟨3 / 10, 3 / 10, 3 / 10⟩

/-- The fragment shader's `main`: the value written to `FragColor`. `normalize`
is the GLSL builtin (it takes a square root, so it is passed in); `shadowMap u v`
is `texture(shadowMap, vec2(u, v)).r`. -/
def fragmentShaderMain (normalize : Vec3 → Vec3) (shadowMap : ℚ → ℚ → ℚ)
    (u : FragmentUniforms) (f : FragmentInput) : Vec4 :=
  let baseColor := fragmentBaseColor u f
  let norm := normalize f.Normal
  let ambient := Vec3.smul (15 / 100) baseColor
  let diff := diffuseFactor norm u.lightDir
  let diffuse := Vec3.smul diff baseColor
  let viewDir := normalize (Vec3.sub u.viewPos f.FragPos)
  let specular := specularTerm viewDir norm u.lightDir
  let shadow := ShadowCalculation shadowMap f.FragPosLightSpace norm u.lightDir
  let lighting := Vec3.add ambient (Vec3.smul (1 - shadow) (Vec3.add diffuse specular))
  ⟨lighting.x, lighting.y, lighting.z, 1⟩

/-! ## Model matrices of the shadow pass (`main`, lines 485-508), and the floor -/

/-- The `model` of object `i` in the shadow (depth) pass after the
`glm::translate` line and before the shared rotation is multiplied on
(lines 488-498). -/
def shadowPassModelUnrotated (i : Fin 12) : Mat4 :=
  let model := Mat4.identity
  let model :=
    if i.val ≥ 5 ∧ i.val < 9 then myopengl.scale ⟨1 / 10, 2, 1 / 10⟩
    else if i.val = 9 then myopengl.scale ⟨4, 1 / 10, 1 / 10⟩
    else if i.val = 10 then myopengl.scale ⟨1 / 10, 1 / 10, 4⟩
    else if i.val = 11 then myopengl.scale ⟨1 / 10, 4, 1 / 10⟩
    else model
  glm.translate model (posiciones i)

/-- The `model` matrix the shadow pass uploads for object `i` (line 499);
`cosAngle` and `sinAngle` are the cosine and sine of the frame's `angle`, the
variable both passes read. -/
def shadowPassModel (cosAngle sinAngle : ℚ) (i : Fin 12) : Mat4 :=
  Mat4.mul (glm.rotate Mat4.identity cosAngle sinAngle ⟨0, 1, 0⟩) (shadowPassModelUnrotated i)

/-- The matrix `modelFloor` the shadow pass uploads for the floor (line 505). -/
def modelFloor : Mat4 := Mat4.identity

/-- The matrix `modelFloorScene` the colour pass uploads for the floor (line 574). -/
def modelFloorScene : Mat4 := Mat4.identity

/-- The depth vertex shader's `gl_Position`:
`lightSpaceMatrix * model * vec4(aPos, 1.0)`, the matrix product taken first. -/
def depthVertexPosition (lightSpaceMatrix model : Mat4) (aPos : Vec3) : Vec4 :=
  Mat4.mulVec (Mat4.mul lightSpaceMatrix model) ⟨aPos.x, aPos.y, aPos.z, 1⟩

/-- The main vertex shader's `FragPosLightSpace`: `lightSpaceMatrix * worldPos`
with `worldPos = model * vec4(aPos, 1.0)`. -/
def vertexFragPosLightSpace (lightSpaceMatrix model : Mat4) (aPos : Vec3) : Vec4 :=
  let worldPos := Mat4.mulVec model ⟨aPos.x, aPos.y, aPos.z, 1⟩
  Mat4.mulVec lightSpaceMatrix worldPos

/-! ## Texture loading (`loadTexture`, lines 219-249) -/

/-- What `stbi_load` hands back for an image it could decode: the three
out-parameters (the pixel data itself plays no part here). -/
structure DecodedImage where
  width : Int
  height : Int
  nrChannels : Int
deriving DecidableEq

/-- The pixel formats `loadTexture` chooses between. -/
inductive GLFormat where
  | GL_RED
  | GL_RGB
  | GL_RGBA
deriving DecidableEq

/-- The calls `loadTexture` makes, in the order it makes them. -/
inductive LoadCall where
  | glGenTextures
  | stbi_set_flip_vertically_on_load
  | stbi_load (path : String)
  | glBindTexture (textureID : Nat)
  | glTexImage2D (format : Option GLFormat) (width height : Int)
  | glGenerateMipmap
  | glTexParameteri_WRAP_S
  | glTexParameteri_WRAP_T
  | glTexParameteri_MIN_FILTER
  | glTexParameteri_MAG_FILTER
  | stbi_image_free
  | coutError (path : String)
deriving DecidableEq

/-- The `format` chosen from `nrChannels`; the variable is left unassigned
(`none`) for any other channel count. -/
def chooseFormat (nrChannels : Int) : Option GLFormat :=
  if nrChannels = 1 then some .GL_RED
  else if nrChannels = 3 then some .GL_RGB
  else if nrChannels = 4 then some .GL_RGBA
  else none

/-- The function `loadTexture`: the handle it returns and the calls it makes.
`generated` is the name `glGenTextures(1, &textureID)` writes into `textureID`;
`decoded` is the result of `stbi_load` (`none` for the null pointer). -/
def loadTexture (generated : Nat) (decoded : Option DecodedImage) (path : String) :
    Nat × List LoadCall :=
  let textureID := generated
  match decoded with
  | some data =>
      (textureID,
        [.glGenTextures, .stbi_set_flip_vertically_on_load, .stbi_load path,
          .glBindTexture textureID,
          .glTexImage2D (chooseFormat data.nrChannels) data.width data.height,
          .glGenerateMipmap, .glTexParameteri_WRAP_S, .glTexParameteri_WRAP_T,
          .glTexParameteri_MIN_FILTER, .glTexParameteri_MAG_FILTER, .stbi_image_free])
  | none =>
      (textureID,
        [.glGenTextures, .stbi_set_flip_vertically_on_load, .stbi_load path,
          .coutError path, .stbi_image_free])

/-- A call that uploads image data to the GPU. -/
def LoadCall.uploadsImage : LoadCall → Bool
  | .glTexImage2D _ _ _ => true
  | _ => false

/-- The vector `textures` of `main` (lines 367-372): the five handles
`loadTexture` returned, in order. `generated k` and `decoded k` are what
`glGenTextures` and `stbi_load` give during the `k`-th load. -/
def textures (generated : Fin 5 → Nat) (decoded : Fin 5 → Option DecodedImage) : List Nat :=
  [(loadTexture (generated 0) (decoded 0) "textures/wood.jpg").1,
   (loadTexture (generated 1) (decoded 1) "textures/metal.jpg").1,
   (loadTexture (generated 2) (decoded 2) "textures/concrete.jpg").1,
   (loadTexture (generated 3) (decoded 3) "textures/grass.jpeg").1,
   (loadTexture (generated 4) (decoded 4) "textures/stone.jpeg").1]

/-! ## Process entry and exit (`main`, lines 262-269, 437 and 652-669) -/

/-- The calls of `main` that matter for how it ends. `setup` stands for
everything between `glfwMakeContextCurrent` and the frame loop, `frame` for one
run of the loop body. -/
inductive Call where
  | glfwInit
  | glfwCreateWindow
  | setup
  | glfwWindowShouldClose
  | frame
  | glDeleteVertexArrays_cubeVAO
  | glDeleteBuffers_cubeVBO
  | glDeleteVertexArrays_planeVAO
  | glDeleteBuffers_planeVBO
  | glDeleteProgram_shaderProgram
  | glDeleteProgram_depthShaderProgram
  | glDeleteTextures_tex (k : Fin 5)
  | glDeleteTextures_depthMap
  | glDeleteFramebuffers_depthMapFBO
  | ImGui_ImplOpenGL3_Shutdown
  | ImGui_ImplGlfw_Shutdown
  | ImGui_DestroyContext
  | glfwDestroyWindow
  | glfwTerminate
deriving DecidableEq

/-- A call that releases something: every call of the list above except the
two creation calls, the setup, the close-flag test and the frame body. -/
def Call.isCleanup : Call → Bool
  | .glfwInit => false
  | .glfwCreateWindow => false
  | .setup => false
  | .glfwWindowShouldClose => false
  | .frame => false
  | _ => true

/-- What the surroundings decide for one run of `main`: whether `glfwInit`
succeeds, whether `glfwCreateWindow` returns a window, and the successive
values of `glfwWindowShouldClose` for as long as the run is observed. -/
structure MainEnv where
  glfwInitOk : Bool
  windowCreated : Bool
  shouldClose : List Bool

/-- The frame loop `while (!glfwWindowShouldClose(window)) { ... }`: the calls
made until the flag is read as set, or `none` when the readings run out with
the loop still going. -/
def frameLoop : List Bool → Option (List Call)
  | [] => none
  | true :: _ => some [.glfwWindowShouldClose]
  | false :: rest =>
      match frameLoop rest with
      | some calls => some (.glfwWindowShouldClose :: .frame :: calls)
      | none => none

/-- The "Limpieza de recursos" block (lines 653-668). -/
def cleanupCalls : List Call :=
  [.glDeleteVertexArrays_cubeVAO, .glDeleteBuffers_cubeVBO, .glDeleteVertexArrays_planeVAO,
    .glDeleteBuffers_planeVBO, .glDeleteProgram_shaderProgram,
    .glDeleteProgram_depthShaderProgram,
    .glDeleteTextures_tex 0, .glDeleteTextures_tex 1, .glDeleteTextures_tex 2,
    .glDeleteTextures_tex 3, .glDeleteTextures_tex 4,
    .glDeleteTextures_depthMap, .glDeleteFramebuffers_depthMapFBO,
    .ImGui_ImplOpenGL3_Shutdown, .ImGui_ImplGlfw_Shutdown, .ImGui_DestroyContext,
    .glfwDestroyWindow, .glfwTerminate]

/-- The function `main`: its return value and the calls made, or `none` while
the frame loop has not ended. -/
def main (env : MainEnv) : Option (Int × List Call) :=
  if !env.glfwInitOk then some (-1, [.glfwInit])
  else if !env.windowCreated then some (-1, [.glfwInit, .glfwCreateWindow, .glfwTerminate])
  else
    match frameLoop env.shouldClose with
    | some calls => some (0, [.glfwInit, .glfwCreateWindow, .setup] ++ calls ++ cleanupCalls)
    | none => none

/-! ## Theorems -/

/-- In the multitexture branch with a positive total, sample `i` is weighted by
`mixRatio_i * (mixRatio_i / totalRatio)`: the ratio enters twice. -/
theorem baseColor_multitexture_weights (r1 r2 r3 : ℚ) (s1 s2 s3 d : Vec4)
    (h : 0 < r1 + r2 + r3) :
    baseColor true true r1 r2 r3 s1 s2 s3 d =
      weightedBlend (r1 * (r1 / (r1 + r2 + r3))) (r2 * (r2 / (r1 + r2 + r3)))
        (r3 * (r3 / (r1 + r2 + r3))) s1 s2 s3 := by
  simp only [baseColor, weightedBlend, if_pos h, if_true, gt_iff_lt, Vec4.smul, Vec4.add,
    Vec4.rgb, Vec3.mk.injEq]
  refine ⟨?_, ?_, ?_⟩ <;> ring

/-- C1 (code defect): with the 'Blend Equal' ratios 0.33/0.33/0.33 and three
opaque white samples the multitexture branch yields the colour
(0.33, 0.33, 0.33), not white; no weights that sum to 1 produce that colour from
these samples, so the weights the shader applies do not sum to 1. -/
theorem baseColor_blend_equal_not_normalized :
    baseColor true true (33 / 100) (33 / 100) (33 / 100)
        ⟨1, 1, 1, 1⟩ ⟨1, 1, 1, 1⟩ ⟨1, 1, 1, 1⟩ ⟨1, 1, 1, 1⟩ = ⟨33 / 100, 33 / 100, 33 / 100⟩ ∧
      ¬ ∃ w1 w2 w3 : ℚ, w1 + w2 + w3 = 1 ∧
        baseColor true true (33 / 100) (33 / 100) (33 / 100)
          ⟨1, 1, 1, 1⟩ ⟨1, 1, 1, 1⟩ ⟨1, 1, 1, 1⟩ ⟨1, 1, 1, 1⟩ =
            weightedBlend w1 w2 w3 ⟨1, 1, 1, 1⟩ ⟨1, 1, 1, 1⟩ ⟨1, 1, 1, 1⟩ := by
  have hval : baseColor true true (33 / 100) (33 / 100) (33 / 100)
      ⟨1, 1, 1, 1⟩ ⟨1, 1, 1, 1⟩ ⟨1, 1, 1, 1⟩ ⟨1, 1, 1, 1⟩ = ⟨33 / 100, 33 / 100, 33 / 100⟩ := by
    simp only [baseColor, Vec4.smul, Vec4.add, Vec4.rgb]
    norm_num
  refine ⟨hval, ?_⟩
  rintro ⟨w1, w2, w3, hsum, heq⟩
  rw [hval] at heq
  simp only [weightedBlend, Vec4.smul, Vec4.add, Vec4.rgb, Vec3.mk.injEq, mul_one] at heq
  have := heq.1
  rw [hsum] at this
  norm_num at this

/-- C2, as the code has it: for every object index `i` and every angle (given by
its cosine and sine) the colour-pass model matrix is
`rotateY * scale(s_i) * translate(posiciones[i])`, the translation being applied
to a vertex before the scale; before the shared rotation the translation
column is the componentwise product of `s_i` and `posiciones[i]`. -/
theorem colorPassModel_eq_rotate_scale_translate (c s : ℚ) (i : Fin 12) :
    colorPassModel c s i =
        Mat4.mul (rotateY c s)
          (Mat4.mul (scaleMatrix (specScale i)) (translationMatrix (posiciones i))) ∧
      (colorPassModelUnrotated i).c3 =
        ⟨(Vec3.hadamard (specScale i) (posiciones i)).x,
         (Vec3.hadamard (specScale i) (posiciones i)).y,
         (Vec3.hadamard (specScale i) (posiciones i)).z, 1⟩ := by
  fin_cases i <;>
    simp [colorPassModel, colorPassModelUnrotated, myopengl.scale, glm.scale, glm.translate,
      glm.rotate, Mat4.mul, Mat4.mulVec, Mat4.identity, rotateY, scaleMatrix, translationMatrix,
      specScale, posiciones, Vec3.hadamard, Vec3.smul, Vec4.smul, Vec4.add] <;>
    norm_num

/-- C2 fails as stated: at angle 0 (cosine 1, sine 0) the model matrix of object 5
is not `rotateY * translate(posiciones[5]) * scale(0.1, 2, 0.1)`, and its
translation column is (-2, -1, 0), not (-20, -0.5, 0). -/
theorem colorPassModel_not_rotate_translate_scale :
    colorPassModel 1 0 5 ≠
        Mat4.mul (rotateY 1 0)
          (Mat4.mul (translationMatrix (posiciones 5)) (scaleMatrix ⟨1 / 10, 2, 1 / 10⟩)) ∧
      (colorPassModelUnrotated 5).c3 = ⟨-2, -1, 0, 1⟩ ∧
      (colorPassModelUnrotated 5).c3 ≠ ⟨-20, -1 / 2, 0, 1⟩ := by
  have h5 : ((5 : Fin 12) : ℕ) = 5 := rfl
  simp [colorPassModel, colorPassModelUnrotated, myopengl.scale, glm.scale, glm.translate,
      glm.rotate, Mat4.mul, Mat4.mulVec, Mat4.identity, rotateY, scaleMatrix, translationMatrix,
      posiciones, Vec3.smul, Vec4.smul, Vec4.add, h5]
  norm_num

/-- C3: `ShadowCalculation` returns 1 exactly when the remapped depth
`currentDepth` is at most 1 and `currentDepth - bias > closestDepth`, and 0
otherwise, so its value is 0 or 1 and it is 0 whenever `currentDepth > 1`; with
closestDepth 0.4 and bias 0.01 it gives 1 at currentDepth 0.5 and 0 at
currentDepth 0.39. -/
theorem ShadowCalculation_spec (shadowMap : ℚ → ℚ → ℚ) (fragPosLightSpace : Vec4)
    (normal lightDir : Vec3) :
    (ShadowCalculation shadowMap fragPosLightSpace normal lightDir =
        if (projCoords fragPosLightSpace).z ≤ 1 ∧
            (projCoords fragPosLightSpace).z - shadowBias normal lightDir >
              shadowMap (projCoords fragPosLightSpace).x (projCoords fragPosLightSpace).y
        then 1 else 0) ∧
      (ShadowCalculation shadowMap fragPosLightSpace normal lightDir = 0 ∨
        ShadowCalculation shadowMap fragPosLightSpace normal lightDir = 1) ∧
      ((projCoords fragPosLightSpace).z ≤ 1 ∨
        ShadowCalculation shadowMap fragPosLightSpace normal lightDir = 0) ∧
      ((projCoords ⟨0, 0, 0, 1⟩).z = 1 / 2 ∧ shadowBias ⟨0, 1, 0⟩ ⟨0, -4 / 5, 3 / 5⟩ = 1 / 100 ∧
        ShadowCalculation (fun _ _ => 2 / 5) ⟨0, 0, 0, 1⟩ ⟨0, 1, 0⟩ ⟨0, -4 / 5, 3 / 5⟩ = 1) ∧
      ((projCoords ⟨0, 0, -11 / 50, 1⟩).z = 39 / 100 ∧
        ShadowCalculation (fun _ _ => 2 / 5) ⟨0, 0, -11 / 50, 1⟩ ⟨0, 1, 0⟩ ⟨0, -4 / 5, 3 / 5⟩ = 0) := by
  refine ⟨?_, ?_, ?_, ⟨?_, ?_, ?_⟩, ⟨?_, ?_⟩⟩
  · unfold ShadowCalculation
    by_cases hz : (projCoords fragPosLightSpace).z > 1
    · have hz2 : ¬ (projCoords fragPosLightSpace).z ≤ 1 := not_le.mpr hz
      simp [hz, hz2]
    · have hz2 : (projCoords fragPosLightSpace).z ≤ 1 := not_lt.mp hz
      simp [hz, hz2]
  · unfold ShadowCalculation
    dsimp only
    split_ifs <;> simp
  · unfold ShadowCalculation
    by_cases hz : (projCoords fragPosLightSpace).z > 1
    · right; simp [hz]
    · left; exact not_lt.mp hz
  · norm_num [projCoords]
  · norm_num [shadowBias, Vec3.dot, Vec3.neg]
  · norm_num [ShadowCalculation, projCoords, shadowBias, Vec3.dot, Vec3.neg]
  · norm_num [projCoords]
  · norm_num [ShadowCalculation, projCoords, shadowBias, Vec3.dot, Vec3.neg]

/-- For unit vectors the dot product `dot(normal, -lightDir)` lies in [-1, 1]. -/
theorem dot_neg_unit_bounds (n l : Vec3) (hn : Vec3.dot n n = 1) (hl : Vec3.dot l l = 1) :
    -1 ≤ Vec3.dot n (Vec3.neg l) ∧ Vec3.dot n (Vec3.neg l) ≤ 1 := by
  simp only [Vec3.dot, Vec3.neg] at *
  constructor
  · nlinarith [sq_nonneg (n.x - l.x), sq_nonneg (n.y - l.y), sq_nonneg (n.z - l.z)]
  · nlinarith [sq_nonneg (n.x + l.x), sq_nonneg (n.y + l.y), sq_nonneg (n.z + l.z)]

/-- C4, as the code has it: for every unit normal and unit light direction the
shadow bias lies between 0.005 and 0.1 inclusive, and it is at most 0.05
whenever `dot(normal, -lightDir)` is not negative. -/
theorem shadowBias_bounds (n l : Vec3) (hn : Vec3.dot n n = 1) (hl : Vec3.dot l l = 1) :
    5 / 1000 ≤ shadowBias n l ∧ shadowBias n l ≤ 1 / 10 ∧
      (0 ≤ Vec3.dot n (Vec3.neg l) → shadowBias n l ≤ 5 / 100) := by
  obtain ⟨hlo, _⟩ := dot_neg_unit_bounds n l hn hl
  unfold shadowBias
  refine ⟨le_max_right _ _, max_le (by linarith) (by norm_num), fun hd => max_le (by linarith) (by norm_num)⟩

/-- Witness for `shadowBias_bounds`: the normal (0, 1, 0) and the light
direction (0, -1, 0). -/
theorem shadowBias_bounds_witness :
    Vec3.dot ⟨0, 1, 0⟩ ⟨0, 1, 0⟩ = 1 ∧ Vec3.dot ⟨0, -1, 0⟩ ⟨0, -1, 0⟩ = 1 ∧
      (5 / 1000 ≤ shadowBias ⟨0, 1, 0⟩ ⟨0, -1, 0⟩ ∧ shadowBias ⟨0, 1, 0⟩ ⟨0, -1, 0⟩ ≤ 1 / 10 ∧
        (0 ≤ Vec3.dot ⟨0, 1, 0⟩ (Vec3.neg ⟨0, -1, 0⟩) →
          shadowBias ⟨0, 1, 0⟩ ⟨0, -1, 0⟩ ≤ 5 / 100)) :=
  ⟨by norm_num [Vec3.dot], by norm_num [Vec3.dot],
    shadowBias_bounds ⟨0, 1, 0⟩ ⟨0, -1, 0⟩ (by norm_num [Vec3.dot]) (by norm_num [Vec3.dot])⟩

/-- C4 fails as stated: the unit normal (0, 1, 0) and the unit light direction
(0, 1, 0) give `dot(normal, -lightDir) = -1` and a bias of 0.1, above 0.05. -/
theorem shadowBias_exceeds_five_hundredths :
    Vec3.dot ⟨0, 1, 0⟩ ⟨0, 1, 0⟩ = 1 ∧ Vec3.dot ⟨0, 1, 0⟩ (Vec3.neg ⟨0, 1, 0⟩) = -1 ∧
      shadowBias ⟨0, 1, 0⟩ ⟨0, 1, 0⟩ = 1 / 10 ∧ ¬ shadowBias ⟨0, 1, 0⟩ ⟨0, 1, 0⟩ ≤ 5 / 100 := by
  norm_num [shadowBias, Vec3.dot, Vec3.neg]

/-- The exponent of a positive number, from the powers of two around it. -/
theorem log_two_eq (r : ℚ) (e : ℤ) (h1 : (2 : ℚ) ^ e ≤ r) (h2 : r < (2 : ℚ) ^ (e + 1)) :
    Int.log 2 r = e := by
  have hr : 0 < r := lt_of_lt_of_le (by positivity) h1
  have hlo : e ≤ Int.log 2 r :=
    (Int.zpow_le_iff_le_log (by norm_num) hr).mp (by exact_mod_cast h1)
  have hhi : Int.log 2 r < e + 1 :=
    (Int.lt_zpow_iff_log_lt (by norm_num) hr).mp (by exact_mod_cast h2)
  omega

/-- The nearest integer, away from the halfway points. -/
theorem roundHalfEven_eq (x : ℚ) (n : ℤ) (h1 : (n : ℚ) - 1 / 2 < x) (h2 : x < n + 1 / 2) :
    roundHalfEven x = n := by
  unfold roundHalfEven
  by_cases hx : (n : ℚ) ≤ x
  · have hf : ⌊x⌋ = n := Int.floor_eq_iff.mpr ⟨hx, by linarith⟩
    simp only [hf]
    rw [if_pos (by linarith)]
  · have hf : ⌊x⌋ = n - 1 :=
      Int.floor_eq_iff.mpr ⟨by push_cast; linarith, by push_cast; linarith⟩
    simp only [hf]
    push_cast
    rw [if_neg (by linarith), if_pos (by linarith)]
    ring

/-- The binary32 rounding of `x`, from its exponent `e` and the integer `n`
nearest to `x / 2 ^ (e - 23)`. -/
theorem f32_eq (x : ℚ) (e n : ℤ) (he : -126 ≤ e) (h1 : (2 : ℚ) ^ e ≤ |x|)
    (h2 : |x| < (2 : ℚ) ^ (e + 1)) (h3 : (n : ℚ) - 1 / 2 < x / 2 ^ (e - 23))
    (h4 : x / 2 ^ (e - 23) < n + 1 / 2) :
    f32 x = n * 2 ^ (e - 23) := by
  unfold f32
  simp only [log_two_eq _ e h1 h2, max_eq_left he, roundHalfEven_eq _ n h3 h4]

/-- Zero is a binary32 value. -/
theorem f32_zero : f32 0 = 0 := by
  simp [f32, roundHalfEven]

/-- The fields the camera control writes when the mouse wheel is at rest:
`lastFrame` and `deltaTime` from the rounded clock reading, and the offset
after one rounded update per key that is down, W before S and A before D. -/
theorem cameraControl_fields (s : AppState) (inp : FrameInput) (hwheel : inp.mouseWheel = 0) :
    (cameraControl s inp).lastFrame = f32 inp.glfwGetTime ∧
      (cameraControl s inp).deltaTime = frameDeltaTime s inp ∧
      (cameraControl s inp).movementSpeed = s.movementSpeed ∧
      (cameraControl s inp).wasd_Movement.y =
        (if inp.keyS then
          f32 ((if inp.keyW then f32 (s.wasd_Movement.y - moveStep s inp)
            else s.wasd_Movement.y) + moveStep s inp)
        else if inp.keyW then f32 (s.wasd_Movement.y - moveStep s inp)
        else s.wasd_Movement.y) ∧
      (cameraControl s inp).wasd_Movement.x =
        (if inp.keyD then
          f32 ((if inp.keyA then f32 (s.wasd_Movement.x + moveStep s inp)
            else s.wasd_Movement.x) - moveStep s inp)
        else if inp.keyA then f32 (s.wasd_Movement.x + moveStep s inp)
        else s.wasd_Movement.x) ∧
      (cameraControl s inp).wasd_Movement.z = s.wasd_Movement.z := by
  obtain ⟨t, kw, ks, ka, kd, wheel, md, dx, dy⟩ := inp
  simp only at hwheel
  subst hwheel
  cases kw <;> cases ks <;> cases ka <;> cases kd <;> cases md <;>
    simp [cameraControl, frameDeltaTime, moveStep]

/-- C10, as the code has it: with the mouse wheel at rest the camera input step
updates the offset once per key that is down, each update adding or
subtracting `step = float(movementSpeed * deltaTime)` and rounding the result to
`float`: W sets `y` to `float(y - step)`, then S sets `y` to `float(y + step)`;
A sets `x` to `float(x + step)`, then D sets `x` to `float(x - step)`. The zoom
offset is unchanged and a component whose two keys are both up is unchanged.
With both keys of a pair down the component comes back to its value when
neither the first update nor the value itself needs rounding. -/
theorem cameraControl_wasd_updates (s : AppState) (inp : FrameInput)
    (hwheel : inp.mouseWheel = 0) :
    (cameraControl s inp).deltaTime = f32 (f32 inp.glfwGetTime - s.lastFrame) ∧
      moveStep s inp = f32 (s.movementSpeed * (cameraControl s inp).deltaTime) ∧
      (cameraControl s inp).wasd_Movement.y =
        (if inp.keyS then
          f32 ((if inp.keyW then f32 (s.wasd_Movement.y - moveStep s inp)
            else s.wasd_Movement.y) + moveStep s inp)
        else if inp.keyW then f32 (s.wasd_Movement.y - moveStep s inp)
        else s.wasd_Movement.y) ∧
      (cameraControl s inp).wasd_Movement.x =
        (if inp.keyD then
          f32 ((if inp.keyA then f32 (s.wasd_Movement.x + moveStep s inp)
            else s.wasd_Movement.x) - moveStep s inp)
        else if inp.keyA then f32 (s.wasd_Movement.x + moveStep s inp)
        else s.wasd_Movement.x) ∧
      (cameraControl s inp).wasd_Movement.z = s.wasd_Movement.z ∧
      (inp.keyW = false → inp.keyS = false →
        (cameraControl s inp).wasd_Movement.y = s.wasd_Movement.y) ∧
      (inp.keyA = false → inp.keyD = false →
        (cameraControl s inp).wasd_Movement.x = s.wasd_Movement.x) ∧
      (inp.keyW = true → inp.keyS = true →
        f32 (s.wasd_Movement.y - moveStep s inp) = s.wasd_Movement.y - moveStep s inp →
        f32 s.wasd_Movement.y = s.wasd_Movement.y →
        (cameraControl s inp).wasd_Movement.y = s.wasd_Movement.y) ∧
      (inp.keyA = true → inp.keyD = true →
        f32 (s.wasd_Movement.x + moveStep s inp) = s.wasd_Movement.x + moveStep s inp →
        f32 s.wasd_Movement.x = s.wasd_Movement.x →
        (cameraControl s inp).wasd_Movement.x = s.wasd_Movement.x) := by
  obtain ⟨_, hdt, _, hy, hx, hz⟩ := cameraControl_fields s inp hwheel
  refine ⟨hdt, ?_, hy, hx, hz, ?_, ?_, ?_, ?_⟩
  · rw [hdt]
    rfl
  · intro hw hs
    rw [hy]
    simp [hw, hs]
  · intro ha hd
    rw [hx]
    simp [ha, hd]
  · intro hw hs h1 h2
    rw [hy]
    simp only [hw, hs, if_true, h1, sub_add_cancel, h2]
  · intro ha hd h1 h2
    rw [hx]
    simp only [ha, hd, if_true, h1, add_sub_cancel_right, h2]

/-- The `float` nearest to 0.2, as a clock reading, is kept as it is. -/
theorem f32_clock_one : f32 (13421773 / 67108864) = 13421773 / 67108864 := by
  rw [f32_eq (13421773 / 67108864) (-3) 13421773 (by norm_num)
    (by rw [abs_of_pos (by norm_num)]; norm_num) (by rw [abs_of_pos (by norm_num)]; norm_num)
    (by norm_num) (by norm_num)]
  norm_num

/-- The `float` nearest to 0.208, as a clock reading, is kept as it is. -/
theorem f32_clock_two : f32 (3489661 / 16777216) = 3489661 / 16777216 := by
  rw [f32_eq (3489661 / 16777216) (-3) 13958644 (by norm_num)
    (by rw [abs_of_pos (by norm_num)]; norm_num) (by rw [abs_of_pos (by norm_num)]; norm_num)
    (by norm_num) (by norm_num)]
  norm_num

/-- The product `5 * float(0.2)` rounds to 1. -/
theorem f32_step_one : f32 (5 * (13421773 / 67108864)) = 1 := by
  rw [f32_eq (5 * (13421773 / 67108864)) 0 8388608 (by norm_num)
    (by rw [abs_of_pos (by norm_num)]; norm_num) (by rw [abs_of_pos (by norm_num)]; norm_num)
    (by norm_num) (by norm_num)]
  norm_num

/-- The value -1 is a `float`. -/
theorem f32_neg_one : f32 (-1) = -1 := by
  rw [f32_eq (-1) 0 (-8388608) (by norm_num)
    (by rw [abs_of_neg (by norm_num)]; norm_num) (by rw [abs_of_neg (by norm_num)]; norm_num)
    (by norm_num) (by norm_num)]
  norm_num

/-- The difference of the two clock readings is a `float`. -/
theorem f32_delta_two : f32 (536871 / 67108864) = 536871 / 67108864 := by
  rw [f32_eq (536871 / 67108864) (-7) 8589936 (by norm_num)
    (by rw [abs_of_pos (by norm_num)]; norm_num) (by rw [abs_of_pos (by norm_num)]; norm_num)
    (by norm_num) (by norm_num)]
  norm_num

/-- Five times that difference is a `float`. -/
theorem f32_step_two : f32 (2684355 / 67108864) = 2684355 / 67108864 := by
  rw [f32_eq (2684355 / 67108864) (-5) 10737420 (by norm_num)
    (by rw [abs_of_pos (by norm_num)]; norm_num) (by rw [abs_of_pos (by norm_num)]; norm_num)
    (by norm_num) (by norm_num)]
  norm_num

/-- Subtracting that step from -1 rounds: three low bits are lost. -/
theorem f32_after_W : f32 (-1 - 2684355 / 67108864) = -1090519 / 1048576 := by
  rw [f32_eq (-1 - 2684355 / 67108864) 0 (-8724152) (by norm_num)
    (by rw [abs_of_neg (by norm_num)]; norm_num) (by rw [abs_of_neg (by norm_num)]; norm_num)
    (by norm_num) (by norm_num)]
  norm_num

/-- Adding the step back lands one `float` above -1. -/
theorem f32_after_S :
    f32 (-1090519 / 1048576 + 2684355 / 67108864) = -16777215 / 16777216 := by
  rw [f32_eq (-1090519 / 1048576 + 2684355 / 67108864) (-1) (-16777215) (by norm_num)
    (by rw [abs_of_neg (by norm_num)]; norm_num) (by rw [abs_of_neg (by norm_num)]; norm_num)
    (by norm_num) (by norm_num)]
  norm_num

/-- Witness for `cameraControl_wasd_updates`: from the initial camera state, a
frame whose clock reads the `float` nearest to 0.2, with W down and the wheel at
rest, moves the vertical offset from 0 to -1 and leaves the other two at 0. -/
theorem cameraControl_wasd_updates_witness :
    (⟨13421773 / 67108864, true, false, false, false, 0, false, 0, 0⟩ : FrameInput).mouseWheel
        = 0 ∧
      (cameraControl (initialState (fun _ => ⟨false, 0, 0, 0, 0, 0, 0⟩))
        ⟨13421773 / 67108864, true, false, false, false, 0, false, 0, 0⟩).wasd_Movement =
          ⟨0, -1, 0⟩ := by
  obtain ⟨_, hstep, hy, hx, hz, _⟩ :=
    cameraControl_wasd_updates (initialState (fun _ => ⟨false, 0, 0, 0, 0, 0, 0⟩))
      ⟨13421773 / 67108864, true, false, false, false, 0, false, 0, 0⟩ rfl
  have hs : moveStep (initialState (fun _ => ⟨false, 0, 0, 0, 0, 0, 0⟩))
      ⟨13421773 / 67108864, true, false, false, false, 0, false, 0, 0⟩ = 1 := by
    show f32 (5 * f32 (f32 (13421773 / 67108864) - 0)) = 1
    rw [f32_clock_one, sub_zero, f32_clock_one, f32_step_one]
  refine ⟨rfl, ?_⟩
  rw [hs] at hy
  have hy2 : (cameraControl (initialState (fun _ => ⟨false, 0, 0, 0, 0, 0, 0⟩))
      ⟨13421773 / 67108864, true, false, false, false, 0, false, 0, 0⟩).wasd_Movement.y = -1 := by
    rw [hy]
    show f32 (0 - 1) = -1
    rw [zero_sub, f32_neg_one]
  have hx2 : (cameraControl (initialState (fun _ => ⟨false, 0, 0, 0, 0, 0, 0⟩))
      ⟨13421773 / 67108864, true, false, false, false, 0, false, 0, 0⟩).wasd_Movement.x = 0 := by
    rw [hx]
    rfl
  have hz2 : (cameraControl (initialState (fun _ => ⟨false, 0, 0, 0, 0, 0, 0⟩))
      ⟨13421773 / 67108864, true, false, false, false, 0, false, 0, 0⟩).wasd_Movement.z = 0 := by
    rw [hz]
    rfl
  have hvec : ∀ v : Vec3, v.x = 0 → v.y = -1 → v.z = 0 → v = ⟨0, -1, 0⟩ := by
    rintro ⟨x, y, z⟩ h1 h2 h3
    simp only at h1 h2 h3
    rw [h1, h2, h3]
  exact hvec _ hx2 hy2 hz2

/-- C10 fails as stated: from the initial state, a frame at the `float` nearest
to 0.2 with W down puts the vertical offset at -1; in the next frame, at the
`float` nearest to 0.208 with W and S both down and the wheel at rest, the
offset becomes -16777215/16777216 (-0.99999994), not -1. -/
theorem cameraControl_opposite_keys_change_offset :
    (cameraControl (initialState (fun _ => ⟨false, 0, 0, 0, 0, 0, 0⟩))
        ⟨13421773 / 67108864, true, false, false, false, 0, false, 0, 0⟩).wasd_Movement.y = -1 ∧
      (cameraControl
        (cameraControl (initialState (fun _ => ⟨false, 0, 0, 0, 0, 0, 0⟩))
          ⟨13421773 / 67108864, true, false, false, false, 0, false, 0, 0⟩)
        ⟨3489661 / 16777216, true, true, false, false, 0, false, 0, 0⟩).wasd_Movement.y =
          -16777215 / 16777216 ∧
      (cameraControl
        (cameraControl (initialState (fun _ => ⟨false, 0, 0, 0, 0, 0, 0⟩))
          ⟨13421773 / 67108864, true, false, false, false, 0, false, 0, 0⟩)
        ⟨3489661 / 16777216, true, true, false, false, 0, false, 0, 0⟩).wasd_Movement.y ≠
        (cameraControl (initialState (fun _ => ⟨false, 0, 0, 0, 0, 0, 0⟩))
          ⟨13421773 / 67108864, true, false, false, false, 0, false, 0, 0⟩).wasd_Movement.y := by
  obtain ⟨hl1, _, hm1, hy1, _, _⟩ :=
    cameraControl_fields (initialState (fun _ => ⟨false, 0, 0, 0, 0, 0, 0⟩))
      ⟨13421773 / 67108864, true, false, false, false, 0, false, 0, 0⟩ rfl
  have hs1 : moveStep (initialState (fun _ => ⟨false, 0, 0, 0, 0, 0, 0⟩))
      ⟨13421773 / 67108864, true, false, false, false, 0, false, 0, 0⟩ = 1 := by
    show f32 (5 * f32 (f32 (13421773 / 67108864) - 0)) = 1
    rw [f32_clock_one, sub_zero, f32_clock_one, f32_step_one]
  have hy1v : (cameraControl (initialState (fun _ => ⟨false, 0, 0, 0, 0, 0, 0⟩))
      ⟨13421773 / 67108864, true, false, false, false, 0, false, 0, 0⟩).wasd_Movement.y = -1 := by
    rw [hy1, hs1]
    show f32 (0 - 1) = -1
    rw [zero_sub, f32_neg_one]
  have hl1v : (cameraControl (initialState (fun _ => ⟨false, 0, 0, 0, 0, 0, 0⟩))
      ⟨13421773 / 67108864, true, false, false, false, 0, false, 0, 0⟩).lastFrame =
        13421773 / 67108864 := by
    rw [hl1]
    exact f32_clock_one
  have hm1v : (cameraControl (initialState (fun _ => ⟨false, 0, 0, 0, 0, 0, 0⟩))
      ⟨13421773 / 67108864, true, false, false, false, 0, false, 0, 0⟩).movementSpeed = 5 := by
    rw [hm1]
    rfl
  obtain ⟨_, _, _, hy2, _, _⟩ :=
    cameraControl_fields
      (cameraControl (initialState (fun _ => ⟨false, 0, 0, 0, 0, 0, 0⟩))
        ⟨13421773 / 67108864, true, false, false, false, 0, false, 0, 0⟩)
      ⟨3489661 / 16777216, true, true, false, false, 0, false, 0, 0⟩ rfl
  have hs2 : moveStep
      (cameraControl (initialState (fun _ => ⟨false, 0, 0, 0, 0, 0, 0⟩))
        ⟨13421773 / 67108864, true, false, false, false, 0, false, 0, 0⟩)
      ⟨3489661 / 16777216, true, true, false, false, 0, false, 0, 0⟩ =
        2684355 / 67108864 := by
    unfold moveStep frameDeltaTime
    rw [hm1v, hl1v]
    show f32 (5 * f32 (f32 (3489661 / 16777216) - 13421773 / 67108864)) = 2684355 / 67108864
    rw [f32_clock_two]
    have hd : (3489661 / 16777216 - 13421773 / 67108864 : ℚ) = 536871 / 67108864 := by norm_num
    rw [hd, f32_delta_two]
    have hp : (5 * (536871 / 67108864) : ℚ) = 2684355 / 67108864 := by norm_num
    rw [hp, f32_step_two]
  have hy2v : (cameraControl
      (cameraControl (initialState (fun _ => ⟨false, 0, 0, 0, 0, 0, 0⟩))
        ⟨13421773 / 67108864, true, false, false, false, 0, false, 0, 0⟩)
      ⟨3489661 / 16777216, true, true, false, false, 0, false, 0, 0⟩).wasd_Movement.y =
        -16777215 / 16777216 := by
    rw [hy2, hs2, hy1v]
    show f32 (f32 (-1 - 2684355 / 67108864) + 2684355 / 67108864) = -16777215 / 16777216
    rw [f32_after_W, f32_after_S]
  refine ⟨hy1v, hy2v, ?_⟩
  rw [hy2v, hy1v]
  norm_num

/-- The loop index list of `for (int i = 0; i < 12; i++)`, written out. -/
theorem finRange_twelve :
    List.finRange 12 = [0, 1, 2, 3, 4, 5, 6, 7, 8, 9, 10, 11] := by
  decide

/-- Every entry written by the start-up loop, whatever the array held before:
entry `i` has the indices `(i % 5, (i+1) % 5, (i+2) % 5)` and the ratios
`(1, 0, 0)`, and multitexture is on exactly for objects 0, 1, 2. -/
theorem initMultiTexConfigs_apply (uninit : Fin 12 → MultiTextureConfig) (i : Fin 12) :
    initMultiTexConfigs uninit i =
      { useMultiTexture := decide (i.val < 3)
        texIndex1 := (i.val : Int) % 5
        texIndex2 := ((i.val : Int) + 1) % 5
        texIndex3 := ((i.val : Int) + 2) % 5
        mixRatio1 := 1
        mixRatio2 := 0
        mixRatio3 := 0 } := by
  unfold initMultiTexConfigs
  rw [finRange_twelve]
  fin_cases i <;> simp [Function.update] <;> decide

/-- C6, as the code has it: for every object index `i` the index triple stored
at start-up is `(i % 5, (i+1) % 5, (i+2) % 5)`, whatever the array held before;
the first index is `i` itself for the objects 0 to 4. -/
theorem initialState_index_triple (uninit : Fin 12 → MultiTextureConfig) (i : Fin 12) :
    ((initialState uninit).multiTexConfigs i).texIndex1 = (i.val : Int) % 5 ∧
      ((initialState uninit).multiTexConfigs i).texIndex2 = ((i.val : Int) + 1) % 5 ∧
      ((initialState uninit).multiTexConfigs i).texIndex3 = ((i.val : Int) + 2) % 5 ∧
      (i.val < 5 → ((initialState uninit).multiTexConfigs i).texIndex1 = (i.val : Int)) := by
  simp only [initialState, initMultiTexConfigs_apply, true_and]
  intro h
  omega

/-- C6 fails as stated: for object 5 the first index stored at start-up is 0, not
5, whatever the array held before. -/
theorem initialState_index_triple_five :
    ((initialState (fun _ => ⟨false, 0, 0, 0, 0, 0, 0⟩)).multiTexConfigs 5).texIndex1 = 0 ∧
      ¬ ∃ uninit : Fin 12 → MultiTextureConfig,
        (((initialState uninit).multiTexConfigs 5).texIndex1,
          ((initialState uninit).multiTexConfigs 5).texIndex2,
          ((initialState uninit).multiTexConfigs 5).texIndex3) = (5, (5 + 1) % 5, (5 + 2) % 5) := by
  have h5 : ((5 : Fin 12) : ℕ) = 5 := rfl
  constructor
  · simp [initialState, initMultiTexConfigs_apply, h5]
  · rintro ⟨uninit, h⟩
    simp [initialState, initMultiTexConfigs_apply, h5] at h

/-- C8: whatever the camera state was, 'Reset View' leaves `Yaw = 0`,
`Pitch = 0` and `wasd_Movement = (0, 0, 0)`. -/
theorem resetView_zeroes_camera (s : AppState) :
    (debugPanel s .resetView).Yaw = 0 ∧ (debugPanel s .resetView).Pitch = 0 ∧
      (debugPanel s .resetView).wasd_Movement = ⟨0, 0, 0⟩ :=
  ⟨rfl, rfl, rfl⟩

/-- The slot of a "Texture Settings" row is the row's loop index. -/
theorem textureRow_val (i : Fin 5) : (textureRow i).val = i.val := rfl

/-- The slot of a "Multitexture Settings" row is the row's loop index. -/
theorem multiTextureRow_val (i : Fin 3) : (multiTextureRow i).val = i.val := rfl

/-- The camera control touches none of the three per-object arrays. -/
theorem cameraControl_arrays (s : AppState) (inp : FrameInput) :
    (cameraControl s inp).cubeTextures = s.cubeTextures ∧
      (cameraControl s inp).useTextures = s.useTextures ∧
      (cameraControl s inp).multiTexConfigs = s.multiTexConfigs := by
  obtain ⟨t, kw, ks, ka, kd, wheel, md, dx, dy⟩ := inp
  by_cases h1 : wheel > 0 <;> by_cases h2 : wheel < 0 <;>
    cases kw <;> cases ks <;> cases ka <;> cases kd <;> cases md <;>
    simp [cameraControl, h1, h2]

/-- A combo entry is a valid subscript of `textures`. -/
theorem validTextureIndex_item (item : Fin 5) : validTextureIndex (item.val : Int) := by
  unfold validTextureIndex
  omega

/-- The texture indices stored at start-up are valid. -/
theorem initialState_textureIndicesValid (uninit : Fin 12 → MultiTextureConfig) :
    TextureIndicesValid (initialState uninit) := by
  intro i
  simp only [initialState, initMultiTexConfigs_apply, validTextureIndex]
  refine ⟨?_, by omega, by omega, by omega⟩
  fin_cases i <;> simp [initCubeTextures]

/-- No Debug Panel interaction stores an invalid texture index. -/
theorem debugPanel_textureIndicesValid (s : AppState) (a : PanelAction)
    (h : TextureIndicesValid s) : TextureIndicesValid (debugPanel s a) := by
  intro j
  have hj := h j
  cases a with
  | resetView => exact hj
  | mouseSensitivitySlider v => exact hj
  | useTextureCheckbox i => exact hj
  | textureCombo i item =>
    simp only [debugPanel]
    split_ifs
    · by_cases hji : j = textureRow i
      · subst hji
        simpa [Function.update] using ⟨validTextureIndex_item item, hj.2⟩
      · simpa [Function.update, hji] using hj
    · exact hj
  | multiTextureCheckbox i =>
    simp only [debugPanel]
    by_cases hji : j = multiTextureRow i
    · subst hji
      simpa [Function.update] using hj
    · simpa [Function.update, hji] using hj
  | primaryTextureCombo i item =>
    simp only [debugPanel]
    split_ifs
    · by_cases hji : j = multiTextureRow i
      · subst hji
        simpa [Function.update] using ⟨hj.1, validTextureIndex_item item, hj.2.2⟩
      · simpa [Function.update, hji] using hj
    · exact hj
  | secondaryTextureCombo i item =>
    simp only [debugPanel]
    split_ifs
    · by_cases hji : j = multiTextureRow i
      · subst hji
        simpa [Function.update] using ⟨hj.1, hj.2.1, validTextureIndex_item item, hj.2.2.2⟩
      · simpa [Function.update, hji] using hj
    · exact hj
  | tertiaryTextureCombo i item =>
    simp only [debugPanel]
    split_ifs
    · by_cases hji : j = multiTextureRow i
      · subst hji
        simpa [Function.update] using ⟨hj.1, hj.2.1, hj.2.2.1, validTextureIndex_item item⟩
      · simpa [Function.update, hji] using hj
    · exact hj
  | primaryMixSlider i v =>
    simp only [debugPanel]
    split_ifs
    · by_cases hji : j = multiTextureRow i
      · subst hji
        simpa [Function.update] using hj
      · simpa [Function.update, hji] using hj
    · exact hj
  | secondaryMixSlider i v =>
    simp only [debugPanel]
    split_ifs
    · by_cases hji : j = multiTextureRow i
      · subst hji
        simpa [Function.update] using hj
      · simpa [Function.update, hji] using hj
    · exact hj
  | tertiaryMixSlider i v =>
    simp only [debugPanel]
    split_ifs
    · by_cases hji : j = multiTextureRow i
      · subst hji
        simpa [Function.update] using hj
      · simpa [Function.update, hji] using hj
    · exact hj
  | blendEqualButton i =>
    simp only [debugPanel]
    split_ifs
    · by_cases hji : j = multiTextureRow i
      · subst hji
        simpa [Function.update] using hj
      · simpa [Function.update, hji] using hj
    · exact hj
  | primaryDominantButton i =>
    simp only [debugPanel]
    split_ifs
    · by_cases hji : j = multiTextureRow i
      · subst hji
        simpa [Function.update] using hj
      · simpa [Function.update, hji] using hj
    · exact hj

/-- No event stores an invalid texture index. -/
theorem step_textureIndicesValid (s : AppState) (e : Event) (h : TextureIndicesValid s) :
    TextureIndicesValid (step s e) := by
  cases e with
  | input inp =>
    intro j
    obtain ⟨h1, _, h3⟩ := cameraControl_arrays s inp
    simp only [step, h1, h3]
    exact h j
  | panel a => exact debugPanel_textureIndicesValid s a h

/-- Validity of the texture indices carries along any sequence of events. -/
theorem foldl_step_textureIndicesValid (events : List Event) (s : AppState)
    (h : TextureIndicesValid s) : TextureIndicesValid (events.foldl step s) := by
  induction events generalizing s with
  | nil => exact h
  | cons e rest ih => exact ih (step s e) (step_textureIndicesValid s e h)

/-- C5: in the initial state and in every state reached from it by any sequence
of Debug Panel interactions (interleaved with any camera input), every
`cubeTextures[i]` and every `texIndex1`, `texIndex2`, `texIndex3` of
`multiTexConfigs[i]` lies in 0..4, so every index with which the colour pass
subscripts `textures` for an object is within the 5-element list. -/
theorem run_textureIndicesValid (uninit : Fin 12 → MultiTextureConfig) (events : List Event) :
    TextureIndicesValid (run uninit events) ∧
      ∀ i : Fin 12, ∀ k ∈ colorPassTextureLookups (run uninit events) i, validTextureIndex k := by
  have hv : TextureIndicesValid (run uninit events) :=
    foldl_step_textureIndicesValid events _ (initialState_textureIndicesValid uninit)
  refine ⟨hv, ?_⟩
  intro i k hk
  obtain ⟨h0, h1, h2, h3⟩ := hv i
  unfold colorPassTextureLookups at hk
  split_ifs at hk
  · simp only [List.mem_cons, List.mem_singleton, List.not_mem_nil, or_false] at hk
    rcases hk with rfl | rfl | rfl
    · exact h1
    · exact h2
    · exact h3
  · simp only [List.mem_singleton] at hk
    subst hk
    exact h0

/-- No Debug Panel interaction writes `useTextures[j]` or `cubeTextures[j]` for
an object `j` outside the five "Texture Settings" rows. -/
theorem debugPanel_texture_unchanged_of_five_le (s : AppState) (a : PanelAction) (j : Fin 12)
    (hj : 5 ≤ j.val) :
    (debugPanel s a).useTextures j = s.useTextures j ∧
      (debugPanel s a).cubeTextures j = s.cubeTextures j := by
  have hrow : ∀ i : Fin 5, j ≠ textureRow i := by
    intro i h
    have := congrArg Fin.val h
    rw [textureRow_val] at this
    omega
  cases a <;> simp only [debugPanel] <;> (try split_ifs) <;>
    simp [Function.update, hrow]

/-- C7, as the code has it: for every object index `i` in 0..4 the 'Use Texture'
checkbox of row `i` changes `useTextures[i]`, and while that flag is on the
'Texture' dropdown of row `i` stores the picked entry in `cubeTextures[i]`, so
some pick changes it; for every object index in 5..11 no Debug Panel
interaction changes `useTextures[i]` or `cubeTextures[i]`. -/
theorem debugPanel_texture_settings (s : AppState) :
    (∀ i : Fin 5,
        (debugPanel s (.useTextureCheckbox i)).useTextures (textureRow i) ≠
          s.useTextures (textureRow i)) ∧
      (∀ i : Fin 5, s.useTextures (textureRow i) = true →
        (∀ item : Fin 5,
          (debugPanel s (.textureCombo i item)).cubeTextures (textureRow i) = (item.val : Int)) ∧
        ∃ item : Fin 5,
          (debugPanel s (.textureCombo i item)).cubeTextures (textureRow i) ≠
            s.cubeTextures (textureRow i)) ∧
      (∀ (j : Fin 12) (a : PanelAction), 5 ≤ j.val →
        (debugPanel s a).useTextures j = s.useTextures j ∧
          (debugPanel s a).cubeTextures j = s.cubeTextures j) := by
  refine ⟨?_, ?_, fun j a hj => debugPanel_texture_unchanged_of_five_le s a j hj⟩
  · intro i
    simp [debugPanel, Function.update]
  · intro i hi
    have hset : ∀ item : Fin 5,
        (debugPanel s (.textureCombo i item)).cubeTextures (textureRow i) = (item.val : Int) := by
      intro item
      simp [debugPanel, hi, Function.update]
    refine ⟨hset, ?_⟩
    by_cases h0 : s.cubeTextures (textureRow i) = 0
    · refine ⟨1, ?_⟩
      rw [hset, h0]
      decide
    · refine ⟨0, ?_⟩
      rw [hset]
      intro h
      exact h0 h.symm

/-- C7 fails as stated: for object 5, in no state does any Debug Panel
interaction change `useTextures[5]`, and none changes `cubeTextures[5]`. -/
theorem debugPanel_no_action_for_object_five :
    (¬ ∃ (s : AppState) (a : PanelAction),
        (debugPanel s a).useTextures 5 ≠ s.useTextures 5) ∧
      ¬ ∃ (s : AppState) (a : PanelAction),
        (debugPanel s a).cubeTextures 5 ≠ s.cubeTextures 5 := by
  have h5 : 5 ≤ ((5 : Fin 12) : ℕ) := by decide
  constructor
  · rintro ⟨s, a, h⟩
    exact h (debugPanel_texture_unchanged_of_five_le s a 5 h5).1
  · rintro ⟨s, a, h⟩
    exact h (debugPanel_texture_unchanged_of_five_le s a 5 h5).2

/-- C9: for each of the three multitexture rows `i`, in every state in which
the row's buttons are drawn (multitexture switched on for object `i`), 'Blend
Equal' sets the three mix ratios of object `i` to exactly (0.33, 0.33, 0.33)
and 'Primary Dominant' sets them to exactly (0.7, 0.2, 0.1); either button
leaves the object's three texture indices and its multitexture flag, every
other object's configuration, `cubeTextures` and `useTextures` unchanged. -/
theorem preset_buttons_set_mix_ratios (s : AppState) (i : Fin 3)
    (hdrawn : (s.multiTexConfigs (multiTextureRow i)).useMultiTexture = true) :
    ((debugPanel s (.blendEqualButton i)).multiTexConfigs (multiTextureRow i) =
        { s.multiTexConfigs (multiTextureRow i) with
          mixRatio1 := 33 / 100, mixRatio2 := 33 / 100, mixRatio3 := 33 / 100 } ∧
      (∀ j : Fin 12, j ≠ multiTextureRow i →
        (debugPanel s (.blendEqualButton i)).multiTexConfigs j = s.multiTexConfigs j) ∧
      (debugPanel s (.blendEqualButton i)).cubeTextures = s.cubeTextures ∧
      (debugPanel s (.blendEqualButton i)).useTextures = s.useTextures) ∧
    ((debugPanel s (.primaryDominantButton i)).multiTexConfigs (multiTextureRow i) =
        { s.multiTexConfigs (multiTextureRow i) with
          mixRatio1 := 7 / 10, mixRatio2 := 2 / 10, mixRatio3 := 1 / 10 } ∧
      (∀ j : Fin 12, j ≠ multiTextureRow i →
        (debugPanel s (.primaryDominantButton i)).multiTexConfigs j = s.multiTexConfigs j) ∧
      (debugPanel s (.primaryDominantButton i)).cubeTextures = s.cubeTextures ∧
      (debugPanel s (.primaryDominantButton i)).useTextures = s.useTextures) := by
  refine ⟨⟨?_, ?_, ?_, ?_⟩, ⟨?_, ?_, ?_, ?_⟩⟩
  · simp [debugPanel, hdrawn, Function.update]
  · intro j hj
    simp [debugPanel, hdrawn, Function.update, hj]
  · simp [debugPanel, hdrawn]
  · simp [debugPanel, hdrawn]
  · simp [debugPanel, hdrawn, Function.update]
  · intro j hj
    simp [debugPanel, hdrawn, Function.update, hj]
  · simp [debugPanel, hdrawn]
  · simp [debugPanel, hdrawn]

/-- Witness for `preset_buttons_set_mix_ratios`: object 0 in the initial state,
where multitexture is on; after 'Blend Equal' its configuration is the start-up
one with the ratios (0.33, 0.33, 0.33), after 'Primary Dominant' with
(0.7, 0.2, 0.1). -/
theorem preset_buttons_set_mix_ratios_witness :
    ((initialState (fun _ => ⟨false, 0, 0, 0, 0, 0, 0⟩)).multiTexConfigs
        (multiTextureRow 0)).useMultiTexture = true ∧
      (debugPanel (initialState (fun _ => ⟨false, 0, 0, 0, 0, 0, 0⟩))
        (.blendEqualButton 0)).multiTexConfigs (multiTextureRow 0) =
          ⟨true, 0, 1, 2, 33 / 100, 33 / 100, 33 / 100⟩ ∧
      (debugPanel (initialState (fun _ => ⟨false, 0, 0, 0, 0, 0, 0⟩))
        (.primaryDominantButton 0)).multiTexConfigs (multiTextureRow 0) =
          ⟨true, 0, 1, 2, 7 / 10, 2 / 10, 1 / 10⟩ := by
  have h0 : ((multiTextureRow 0 : Fin 12) : ℕ) = 0 := rfl
  have hd : ((initialState (fun _ => ⟨false, 0, 0, 0, 0, 0, 0⟩)).multiTexConfigs
      (multiTextureRow 0)).useMultiTexture = true := by
    simp [initialState, initMultiTexConfigs_apply, h0]
  have h := preset_buttons_set_mix_ratios
    (initialState (fun _ => ⟨false, 0, 0, 0, 0, 0, 0⟩)) 0 hd
  refine ⟨hd, ?_, ?_⟩
  · rw [h.1.1]
    simp [initialState, initMultiTexConfigs_apply, h0]
  · rw [h.2.1]
    simp [initialState, initMultiTexConfigs_apply, h0]

/-- C11: for every camera state the view matrix is
`translate(offset.x, offset.y, -18 + offset.z) * rotateY(Pitch) * rotateX(Yaw)`
(bracketed either way); after 'Reset View', with cosine 1 and sine 0 at angle 0,
it is the pure translation by (0, 0, -18). -/
theorem viewMatrix_eq_translate_rotateY_rotateX (cos sin : ℚ → ℚ) (s : AppState) :
    viewMatrix cos sin s =
        Mat4.mul
          (Mat4.mul
            (translationMatrix ⟨s.wasd_Movement.x, s.wasd_Movement.y, -18 + s.wasd_Movement.z⟩)
            (rotateY (cos s.Pitch) (sin s.Pitch)))
          (rotateX (cos s.Yaw) (sin s.Yaw)) ∧
      viewMatrix cos sin s =
        Mat4.mul
          (translationMatrix ⟨s.wasd_Movement.x, s.wasd_Movement.y, -18 + s.wasd_Movement.z⟩)
          (Mat4.mul (rotateY (cos s.Pitch) (sin s.Pitch)) (rotateX (cos s.Yaw) (sin s.Yaw))) ∧
      (cos 0 = 1 → sin 0 = 0 →
        viewMatrix cos sin (debugPanel s .resetView) = translationMatrix ⟨0, 0, -18⟩) := by
  refine ⟨?_, ?_, ?_⟩
  · simp [viewMatrix, glm.translate, glm.rotate, Mat4.mul, Mat4.mulVec, Mat4.identity, rotateY,
      rotateX, translationMatrix, Vec3.smul, Vec4.smul, Vec4.add]
  · simp [viewMatrix, glm.translate, glm.rotate, Mat4.mul, Mat4.mulVec, Mat4.identity, rotateY,
      rotateX, translationMatrix, Vec3.smul, Vec4.smul, Vec4.add]
  · intro hc hs
    simp [viewMatrix, debugPanel, glm.translate, glm.rotate, Mat4.identity, translationMatrix,
      Vec3.smul, Vec4.smul, Vec4.add, hc, hs]

/-- Witness for `viewMatrix_eq_translate_rotateY_rotateX`: from a camera moved
to (1, 2, 3) with `Yaw = 1/2` and `Pitch = 1/3`, 'Reset View' gives the
translation by (0, 0, -18); the cosine and sine used are 1 and 0 at angle 0 and
3/5 and 4/5 elsewhere. -/
theorem viewMatrix_after_resetView_witness :
    viewMatrix (fun a => if a = 0 then 1 else 3 / 5) (fun a => if a = 0 then 0 else 4 / 5)
        (debugPanel
          { initialState (fun _ => ⟨false, 0, 0, 0, 0, 0, 0⟩) with
            Yaw := 1 / 2, Pitch := 1 / 3, wasd_Movement := ⟨1, 2, 3⟩ }
          .resetView) =
      translationMatrix ⟨0, 0, -18⟩ :=
  (viewMatrix_eq_translate_rotateY_rotateX _ _ _).2.2 (by simp) (by simp)

/-- C12: when `useTexture` is false the base colour is white (1, 1, 1), whatever
the multitexture flag, the three mix ratios and the texture samples are, and
the fragment is written with alpha 1. -/
theorem baseColor_white_without_texture (useMultiTexture : Bool) (r1 r2 r3 : ℚ)
    (s1 s2 s3 d : Vec4) (normalize : Vec3 → Vec3) (shadowMap : ℚ → ℚ → ℚ)
    (lightDir viewPos : Vec3) (FragPos Normal : Vec3) (FragPosLightSpace : Vec4) :
    baseColor false useMultiTexture r1 r2 r3 s1 s2 s3 d = ⟨1, 1, 1⟩ ∧
      fragmentBaseColor ⟨useMultiTexture, false, r1, r2, r3, lightDir, viewPos⟩
        ⟨FragPos, Normal, FragPosLightSpace, s1, s2, s3, d⟩ = ⟨1, 1, 1⟩ ∧
      (fragmentShaderMain normalize shadowMap
        ⟨useMultiTexture, false, r1, r2, r3, lightDir, viewPos⟩
        ⟨FragPos, Normal, FragPosLightSpace, s1, s2, s3, d⟩).w = 1 := by
  refine ⟨?_, ?_, ?_⟩
  · simp [baseColor]
  · simp [fragmentBaseColor, baseColor]
  · simp [fragmentShaderMain]

/-- C13: the colour written by the fragment shader is
`0.15 * base + (1 - shadow) * (max(dot(n, -l), 0) * base + specular)` with alpha
1, where `shadow` is the value of `ShadowCalculation`; that value is 1 or 0, and
accordingly the colour is exactly `0.15 * base`, or `0.15 * base` plus the full
diffuse and specular terms. -/
theorem fragmentShaderMain_lighting (normalize : Vec3 → Vec3) (shadowMap : ℚ → ℚ → ℚ)
    (u : FragmentUniforms) (f : FragmentInput) :
    (fragmentShaderMain normalize shadowMap u f).w = 1 ∧
      Vec4.rgb (fragmentShaderMain normalize shadowMap u f) =
        Vec3.add (Vec3.smul (15 / 100) (fragmentBaseColor u f))
          (Vec3.smul
            (1 - ShadowCalculation shadowMap f.FragPosLightSpace (normalize f.Normal) u.lightDir)
            (Vec3.add
              (Vec3.smul (max (Vec3.dot (normalize f.Normal) (Vec3.neg u.lightDir)) 0)
                (fragmentBaseColor u f))
              (specularTerm (normalize (Vec3.sub u.viewPos f.FragPos)) (normalize f.Normal)
                u.lightDir))) ∧
      ((ShadowCalculation shadowMap f.FragPosLightSpace (normalize f.Normal) u.lightDir = 1 ∧
          Vec4.rgb (fragmentShaderMain normalize shadowMap u f) =
            Vec3.smul (15 / 100) (fragmentBaseColor u f)) ∨
        (ShadowCalculation shadowMap f.FragPosLightSpace (normalize f.Normal) u.lightDir = 0 ∧
          Vec4.rgb (fragmentShaderMain normalize shadowMap u f) =
            Vec3.add (Vec3.smul (15 / 100) (fragmentBaseColor u f))
              (Vec3.add
                (Vec3.smul (max (Vec3.dot (normalize f.Normal) (Vec3.neg u.lightDir)) 0)
                  (fragmentBaseColor u f))
                (specularTerm (normalize (Vec3.sub u.viewPos f.FragPos)) (normalize f.Normal)
                  u.lightDir)))) := by
  refine ⟨rfl, rfl, ?_⟩
  have h01 : ShadowCalculation shadowMap f.FragPosLightSpace (normalize f.Normal) u.lightDir = 0 ∨
      ShadowCalculation shadowMap f.FragPosLightSpace (normalize f.Normal) u.lightDir = 1 := by
    unfold ShadowCalculation
    dsimp only
    split_ifs <;> simp
  rcases h01 with h | h
  · right
    refine ⟨h, ?_⟩
    simp [fragmentShaderMain, h, Vec4.rgb, Vec3.add, Vec3.smul, diffuseFactor]
  · left
    refine ⟨h, ?_⟩
    simp [fragmentShaderMain, h, Vec4.rgb, Vec3.add, Vec3.smul]

/-- Applying a product of matrices is applying the factors in turn. -/
theorem Mat4.mulVec_mul (a b : Mat4) (v : Vec4) :
    Mat4.mulVec (Mat4.mul a b) v = Mat4.mulVec a (Mat4.mulVec b v) := by
  simp only [Mat4.mulVec, Mat4.mul, Vec4.add, Vec4.smul, Vec4.mk.injEq]
  refine ⟨?_, ?_, ?_, ?_⟩ <;> ring

/-- C16: within one frame, for every object index `i` the model matrix the
shadow pass uploads equals the one the colour pass uploads (same angle, same
scale rule, same position), and both passes use the identity for the floor;
hence the position a vertex gets in the shadow map is the light-space position
the colour pass computes for it. -/
theorem shadowPassModel_eq_colorPassModel (c s : ℚ) (i : Fin 12) :
    shadowPassModel c s i = colorPassModel c s i ∧
      modelFloor = Mat4.identity ∧ modelFloorScene = Mat4.identity ∧
      (∀ (lightSpaceMatrix : Mat4) (aPos : Vec3),
        depthVertexPosition lightSpaceMatrix (shadowPassModel c s i) aPos =
          vertexFragPosLightSpace lightSpaceMatrix (colorPassModel c s i) aPos) ∧
      (∀ (lightSpaceMatrix : Mat4) (aPos : Vec3),
        depthVertexPosition lightSpaceMatrix modelFloor aPos =
          vertexFragPosLightSpace lightSpaceMatrix modelFloorScene aPos) := by
  have hm : shadowPassModel c s i = colorPassModel c s i := by
    unfold shadowPassModel colorPassModel shadowPassModelUnrotated colorPassModelUnrotated
    rfl
  refine ⟨hm, rfl, rfl, ?_, ?_⟩
  · intro l p
    rw [hm]
    exact Mat4.mulVec_mul l _ _
  · intro l p
    exact Mat4.mulVec_mul l _ _

/-- The frame loop ends as soon as one reading of the close flag is set. -/
theorem frameLoop_ends (readings : List Bool) (h : true ∈ readings) :
    ∃ calls, frameLoop readings = some calls := by
  induction readings with
  | nil => simp at h
  | cons b rest ih =>
    cases b with
    | true => exact ⟨_, rfl⟩
    | false =>
      have hrest : true ∈ rest := by simpa using h
      obtain ⟨calls, hcalls⟩ := ih hrest
      exact ⟨.glfwWindowShouldClose :: .frame :: calls, by simp [frameLoop, hcalls]⟩

/-- C14, as the code has it: `main` returns -1 when `glfwInit` fails, having
made no cleanup call; it returns -1 when `glfwCreateWindow` fails, having made
exactly one cleanup call, `glfwTerminate`; and when both succeed and the
window-close flag is read as set, the loop ends and `main` returns 0 after the
cleanup block. -/
theorem main_exit_paths (env : MainEnv) :
    (env.glfwInitOk = false →
        ∃ calls, main env = some (-1, calls) ∧ calls.filter Call.isCleanup = []) ∧
      (env.glfwInitOk = true → env.windowCreated = false →
        ∃ calls, main env = some (-1, calls) ∧
          calls.filter Call.isCleanup = [Call.glfwTerminate]) ∧
      (env.glfwInitOk = true → env.windowCreated = true → true ∈ env.shouldClose →
        ∃ calls, main env = some (0, calls) ∧ cleanupCalls <:+ calls) := by
  refine ⟨?_, ?_, ?_⟩
  · intro h
    refine ⟨[.glfwInit], ?_, by decide⟩
    simp [main, h]
  · intro h1 h2
    refine ⟨[.glfwInit, .glfwCreateWindow, .glfwTerminate], ?_, by decide⟩
    simp [main, h1, h2]
  · intro h1 h2 h3
    obtain ⟨calls, hcalls⟩ := frameLoop_ends env.shouldClose h3
    refine ⟨[.glfwInit, .glfwCreateWindow, .setup] ++ calls ++ cleanupCalls, ?_, ?_⟩
    · simp [main, h1, h2, hcalls]
    · exact List.suffix_append _ _

/-- Witness for `main_exit_paths`: with both creations succeeding and the close
flag set at the third reading, `main` returns 0. -/
theorem main_exit_paths_witness :
    ∃ calls, main ⟨true, true, [false, false, true]⟩ = some (0, calls) ∧
      cleanupCalls <:+ calls :=
  (main_exit_paths ⟨true, true, [false, false, true]⟩).2.2 rfl rfl (by decide)

/-- C14 fails as stated: when `glfwInit` succeeds and `glfwCreateWindow` returns
no window, `main` returns -1 after calling `glfwTerminate`, a cleanup call. -/
theorem main_window_failure_calls_glfwTerminate :
    main ⟨true, false, []⟩ =
        some (-1, [Call.glfwInit, Call.glfwCreateWindow, Call.glfwTerminate]) ∧
      Call.isCleanup Call.glfwTerminate = true ∧
      [Call.glfwInit, Call.glfwCreateWindow, Call.glfwTerminate].filter Call.isCleanup ≠ [] := by
  refine ⟨rfl, rfl, by decide⟩

/-- C15, as the code has it: for every path whose image cannot be decoded,
`loadTexture` logs an error for that path, makes no call that uploads image
data, and returns the handle `glGenTextures` generated, the same handle it
returns when the decode succeeds; the list `textures` holds the five generated
handles whatever the decode results were. -/
theorem loadTexture_decode_failure (generated : Nat) (path : String) :
    (loadTexture generated none path).1 = generated ∧
      LoadCall.coutError path ∈ (loadTexture generated none path).2 ∧
      (∀ c ∈ (loadTexture generated none path).2, c.uploadsImage = false) ∧
      (∀ data : DecodedImage,
        (loadTexture generated (some data) path).1 = (loadTexture generated none path).1) ∧
      (∀ (gen : Fin 5 → Nat) (decoded : Fin 5 → Option DecodedImage),
        textures gen decoded = [gen 0, gen 1, gen 2, gen 3, gen 4]) := by
  refine ⟨rfl, ?_, ?_, fun _ => rfl, ?_⟩
  · simp [loadTexture]
  · intro c hc
    simp only [loadTexture, List.mem_cons, List.mem_singleton, List.not_mem_nil, or_false] at hc
    rcases hc with rfl | rfl | rfl | rfl | rfl <;> rfl
  · intro gen decoded
    simp only [textures]
    cases decoded 0 <;> cases decoded 1 <;> cases decoded 2 <;> cases decoded 3 <;>
      cases decoded 4 <;> rfl

/-- C15 fails as stated: when `glGenTextures` generates the name 1 and the
image cannot be decoded, `loadTexture` returns 1, not 0; with the names 1 to 5
generated and no image decoded, no entry of `textures` is 0. -/
theorem loadTexture_failure_handle_not_zero :
    (loadTexture 1 none "textures/wood.jpg").1 = 1 ∧
      (loadTexture 1 none "textures/wood.jpg").1 ≠ 0 ∧
      textures (fun k => k.val + 1) (fun _ => none) = [1, 2, 3, 4, 5] ∧
      0 ∉ textures (fun k => k.val + 1) (fun _ => none) := by
  refine ⟨rfl, by decide, rfl, ?_⟩
  have h : textures (fun k => k.val + 1) (fun _ => none) = [1, 2, 3, 4, 5] := rfl
  rw [h]
  decide

end Taller7CVI
